import Mathlib

/-!
Verification of the order-fulfillment and invoicing engine of the
carpinteria-node repository.

The relational store (MySQL, schema in seeds/carpinteria.sql) is embedded as an
explicit state value `BaseDatos`; each model method of src/models/Venta.js and
src/models/Factura.js becomes a function from the state to `Except ErrorVenta`
of a result and a new state.  A method that throws inside its transaction rolls
the transaction back, so in the embedding it returns only the error and the
caller keeps the unmodified pre-state.  DECIMAL(10,2) money columns are embedded
as exact integer amounts (cents); the JavaScript float additions on these values
are exact at the magnitudes the DECIMAL(10,2) columns admit relative to the
0.005 rounding threshold of the column, so exact arithmetic is the faithful
reading.  VARCHAR invoice numbers are embedded as `String` with the SQL
`LIKE 'p%'` filter as a character-prefix test and `ORDER BY ... DESC LIMIT 1`
as the lexicographic maximum, which is how MySQL compares these digit-only
values.
-/

deriving instance DecidableEq for Except

namespace Carpinteria

/-- Estado column of the Productos table: ENUM('DISPONIBLE','AGOTADO','DESCONTINUADO'). -/
inductive EstadoProducto where
  | disponible
  | agotado
  | descontinuado
deriving DecidableEq, Repr

/-- Estado_venta column of the Ventas table: ENUM('COMPLETADA','CANCELADA'). -/
inductive EstadoVenta where
  | completada
  | cancelada
deriving DecidableEq, Repr

/-- Estado column of the Facturas table: ENUM('EMITIDA','PAGADA','ANULADA'). -/
inductive EstadoFactura where
  | emitida
  | pagada
  | anulada
deriving DecidableEq, Repr

/-- Row of the Productos table (the columns the engine touches).  `precio` is
DECIMAL(10,2) in cents; `stock` is a signed INT column, so it is embedded as
`Int` rather than assuming non-negativity. -/
structure Producto where
  id_producto : Nat
  nombre_producto : String
  precio : Nat
  stock : Int
  estado : EstadoProducto
deriving DecidableEq, Repr

/-- Row of the Carritos table; id_usuario is UNIQUE in the schema. -/
structure Carrito where
  id_carrito : Nat
  id_usuario : Nat
deriving DecidableEq, Repr

/-- Row of the Productos_Carrito table; PRIMARY KEY (id_carrito, id_producto). -/
structure ProductoCarrito where
  id_carrito : Nat
  id_producto : Nat
  cantidad : Nat
deriving DecidableEq, Repr

/-- Row of the Ventas table. -/
structure Venta where
  id_venta : Nat
  id_usuario : Nat
  total_venta : Nat
  estado_venta : EstadoVenta
deriving DecidableEq, Repr

/-- Row of the Detalles_Venta table. -/
structure DetalleVenta where
  id_venta : Nat
  id_producto : Nat
  cantidad : Nat
  precio_unitario : Nat
  subtotal_linea : Nat
deriving DecidableEq, Repr

/-- Row of the Facturas table; both id_venta and numero_factura are UNIQUE. -/
structure Factura where
  id_factura : Nat
  id_venta : Nat
  numero_factura : String
  monto_total : Nat
  estado : EstadoFactura
deriving DecidableEq, Repr

/-- The relational store.  `siguienteIdVenta` and `siguienteIdFactura` are the
AUTO_INCREMENT counters of Ventas and Facturas. -/
structure BaseDatos where
  productos : List Producto
  carritos : List Carrito
  productosCarrito : List ProductoCarrito
  ventas : List Venta
  detallesVenta : List DetalleVenta
  facturas : List Factura
  siguienteIdVenta : Nat
  siguienteIdFactura : Nat
deriving DecidableEq, Repr

/-- Current date as used by new Date() in Factura.generarNumeroFactura: the
year and the 1-based month. -/
structure Fecha where
  anio : Nat
  mes : Nat
deriving DecidableEq, Repr

/-- Typed rendering of every throw site of the two models, plus the
duplicate-key error the store itself raises on a UNIQUE violation.
`stockInsuficiente` carries the product name, the available stock and the
requested quantity, exactly the data interpolated into the thrown message. -/
inductive ErrorVenta where
  | carritoNoEncontrado
  | carritoVacio
  | stockInsuficiente (nombre : String) (disponible : Int) (solicitado : Nat)
  | ventaNoEncontrada
  | ventaNoCancelable
  | ventaNoCompletada
  | facturaDuplicada
  | facturaNoEncontrada
  | facturaNoAnulable
  | facturaNoPagable
  | claveDuplicada
deriving DecidableEq, Repr

/-- JavaScript String.prototype.padStart: prepend copies of `c` until the
length reaches `objetivo`; a string already long enough is returned unchanged
(Nat subtraction yields an empty pad in that case, as in JS). -/
def padStart (objetivo : Nat) (c : Char) (s : String) : String :=
  String.mk (List.replicate (objetivo - s.length) c) ++ s

/-- SQL LIKE 'pre%' on the digit-only numero_factura column: character prefix
test. -/
def likePrefijo (pre s : String) : Bool :=
  pre.data.isPrefixOf s.data

/-- JavaScript slice(-4): the last four characters (the whole string when it is
shorter, matching JS, via Nat subtraction). -/
def ultimosCuatro (s : String) : String :=
  String.mk (s.data.drop (s.data.length - 4))

/-- Strict lexicographic order on character lists, written by structural
recursion; proved below (menorLista_lex) to agree with the lexicographic
order that MySQL uses to sort the VARCHAR column. -/
def menorLista : List Char → List Char → Bool
  | _, [] => false
  | [], _ :: _ => true
  | a :: as, b :: bs =>
    if a < b then true else if a = b then menorLista as bs else false

/-- SQL ORDER BY numero_factura DESC LIMIT 1: the lexicographically greatest
string of the list, none when the list is empty. -/
def maximaCadena : List String → Option String
  | [] => none
  | s :: resto =>
    match maximaCadena resto with
    | none => some s
    | some m => some (if menorLista m.data s.data then s else m)

/-- JavaScript parseInt on a decimal string: none when the string is empty or
holds a non-digit (JS would yield NaN), the decimal value otherwise.  Written
by structural recursion over the character list (it agrees with
String.toNat?). -/
def parseEntero (s : String) : Option Nat :=
  if !s.data.isEmpty && s.data.all Char.isDigit then
    some (s.data.foldl (fun n c => n * 10 + (c.toNat - '0'.toNat)) 0)
  else
    none

/-- Factura.generarNumeroFactura (src/models/Factura.js:61-83).  The year and
month come from new Date() (passed here as arguments); the SELECT runs on the
pool, reading the committed Facturas rows.  `parseInt` of the 4-character
digit slice is `parseEntero`; the `getD 0` branch is unreachable for the
digit-only numbers the table holds (on a non-digit slice JS would produce NaN
and the request would fail).  `siguienteSecuencial` is lines 74-80: 1 when the
period has no rows, the parsed last four digits plus one otherwise;
`generarNumeroFactura` is the full derivation. -/
def siguienteSecuencial (ultima : Option String) : Nat :=
  match ultima with
  | none => 1
  | some ultimo => ((parseEntero (ultimosCuatro ultimo)).getD 0) + 1

def generarNumeroFactura (anio mes : Nat) (facturas : List Factura) : String :=
  let prefijo := toString anio ++ padStart 2 '0' (toString mes)
  let delPeriodo := (facturas.filter fun f => likePrefijo prefijo f.numero_factura).map
    fun f => f.numero_factura
  prefijo ++ padStart 4 '0' (toString (siguienteSecuencial (maximaCadena delPeriodo)))

/-- Join of Productos_Carrito with Productos used by step 2 of
Venta.procesarVentaDesdeCarrito (src/models/Venta.js:32-43): the cart's rows,
each paired with its product row, keeping only products whose estado is
DISPONIBLE.  Row order is the table order of Productos_Carrito. -/
def lineaDeCarrito (db : BaseDatos) (pc : ProductoCarrito) :
    Option (ProductoCarrito × Producto) :=
  match db.productos.find? (fun p => decide (p.id_producto = pc.id_producto)) with
  | some p => if p.estado = EstadoProducto.disponible then some (pc, p) else none
  | none => none

def lineasCarrito (idCarrito : Nat) (db : BaseDatos) : List (ProductoCarrito × Producto) :=
  (db.productosCarrito.filter fun pc => decide (pc.id_carrito = idCarrito)).filterMap
    (lineaDeCarrito db)

/-- Subtotal column computed in the SQL of step 2: cantidad * precio. -/
def subtotalLinea (par : ProductoCarrito × Producto) : Nat :=
  par.1.cantidad * par.2.precio

/-- Step 3 of Venta.procesarVentaDesdeCarrito (src/models/Venta.js:49-54): the
for-loop throws at the first row with cantidad > stock. -/
def primeraLineaSinStock (lineas : List (ProductoCarrito × Producto)) :
    Option (ProductoCarrito × Producto) :=
  lineas.find? fun par => decide ((par.1.cantidad : Int) > par.2.stock)

/-- Step 4 of Venta.procesarVentaDesdeCarrito: the reduce summing the
subtotals. -/
def totalCarrito (lineas : List (ProductoCarrito × Producto)) : Nat :=
  (lineas.map subtotalLinea).sum

/-- Stock UPDATE of step 7 (src/models/Venta.js:79-87).  MySQL evaluates the
SET clauses left to right and later clauses see the already-updated columns,
so in the CASE expression `stock - ?` reads the freshly decremented stock:
the estado flips to AGOTADO when (stock − cantidad) − cantidad ≤ 0, not when
stock − cantidad ≤ 0. -/
def decrementarStock (p : Producto) (cantidad : Nat) : Producto :=
  { p with
    stock := p.stock - (cantidad : Int)
    estado :=
      if p.stock - (cantidad : Int) - (cantidad : Int) ≤ 0 then EstadoProducto.agotado
      else p.estado }

/-- Stock UPDATE of the compensation paths (src/models/Venta.js:260-268 and
src/models/Factura.js:316-324).  As above, `stock + ?` in the CASE reads the
already-incremented stock while `estado` still reads its old value. -/
def incrementarStock (p : Producto) (cantidad : Nat) : Producto :=
  { p with
    stock := p.stock + (cantidad : Int)
    estado :=
      if p.estado = EstadoProducto.agotado ∧ p.stock + (cantidad : Int) + (cantidad : Int) > 0 then
        EstadoProducto.disponible
      else p.estado }

/-- Detalles_Venta row inserted by step 6 for one cart line. -/
def detalleDeLinea (idVenta : Nat) (par : ProductoCarrito × Producto) : DetalleVenta :=
  { id_venta := idVenta
    id_producto := par.1.id_producto
    cantidad := par.1.cantidad
    precio_unitario := par.2.precio
    subtotal_linea := subtotalLinea par }

/-- One iteration of the loop of steps 6-7: insert the Detalles_Venta row and
decrement the product's stock. -/
def registrarLinea (idVenta : Nat) (db : BaseDatos) (par : ProductoCarrito × Producto) :
    BaseDatos :=
  { db with
    detallesVenta := db.detallesVenta ++ [detalleDeLinea idVenta par]
    productos := db.productos.map fun q =>
      if q.id_producto = par.1.id_producto then decrementarStock q par.1.cantidad else q }

/-- Venta.procesarVentaDesdeCarrito (src/models/Venta.js:12-106): the checkout
transaction.  On any throw the transaction is rolled back, hence the error
branches return no state and the caller keeps the pre-state.  On success the
returned Nat is the inserted venta's id (the source then re-reads the venta by
that id outside the transaction). -/
def procesarVentaDesdeCarrito (idUsuario : Nat) (db : BaseDatos) :
    Except ErrorVenta (Nat × BaseDatos) :=
  match db.carritos.find? (fun c => decide (c.id_usuario = idUsuario)) with
  | none => .error .carritoNoEncontrado
  | some c =>
    let lineas := lineasCarrito c.id_carrito db
    if lineas.isEmpty then .error .carritoVacio
    else
      match primeraLineaSinStock lineas with
      | some par => .error (.stockInsuficiente par.2.nombre_producto par.2.stock par.1.cantidad)
      | none =>
        let idVenta := db.siguienteIdVenta
        let db1 : BaseDatos :=
          { db with
            ventas := db.ventas ++
              [{ id_venta := idVenta, id_usuario := idUsuario,
                 total_venta := totalCarrito lineas, estado_venta := .completada }]
            siguienteIdVenta := idVenta + 1 }
        let db2 := lineas.foldl (registrarLinea idVenta) db1
        let db3 : BaseDatos :=
          { db2 with
            productosCarrito := db2.productosCarrito.filter fun pc =>
              decide (pc.id_carrito ≠ c.id_carrito) }
        .ok (idVenta, db3)

/-- One iteration of the stock-restoring loop shared by Venta.cancelarVenta
(src/models/Venta.js:259-269) and Factura.anularFactura
(src/models/Factura.js:315-325): the UPDATE adding one Detalles_Venta row's
cantidad back to its product. -/
def restaurarStockPaso (acc : BaseDatos) (d : DetalleVenta) : BaseDatos :=
  { acc with
    productos := acc.productos.map fun p =>
      if p.id_producto = d.id_producto then incrementarStock p d.cantidad else p }

/-- Venta.cancelarVenta (src/models/Venta.js:236-285): requires a COMPLETADA
venta owned by the user, restores stock from its Detalles_Venta rows and marks
the venta CANCELADA.  The Facturas table is never touched. -/
def cancelarVenta (idVenta idUsuario : Nat) (db : BaseDatos) : Except ErrorVenta BaseDatos :=
  match db.ventas.find? (fun v =>
      decide (v.id_venta = idVenta) && decide (v.id_usuario = idUsuario) &&
      decide (v.estado_venta = EstadoVenta.completada)) with
  | none => .error .ventaNoCancelable
  | some _ =>
    let detalles := db.detallesVenta.filter fun d => decide (d.id_venta = idVenta)
    let db1 := detalles.foldl restaurarStockPaso db
    .ok { db1 with
      ventas := db1.ventas.map fun v =>
        if v.id_venta = idVenta then { v with estado_venta := .cancelada } else v }

/-- Read phase of Factura.generarFactura (src/models/Factura.js:18-35): the
LEFT JOIN check that the venta exists, is COMPLETADA and has no factura, then
the number derivation.  The derivation runs on the pool connection, outside
the transaction of the insert phase; the returned pair is the derived number
and the venta's total read by the first SELECT. -/
def generarFacturaLectura (idVenta : Nat) (hoy : Fecha) (db : BaseDatos) :
    Except ErrorVenta (String × Nat) :=
  match db.ventas.find? (fun v =>
      decide (v.id_venta = idVenta) && decide (v.estado_venta = EstadoVenta.completada)) with
  | none => .error .ventaNoCompletada
  | some v =>
    match db.facturas.find? (fun f => decide (f.id_venta = idVenta)) with
    | some _ => .error .facturaDuplicada
    | none => .ok (generarNumeroFactura hoy.anio hoy.mes db.facturas, v.total_venta)

/-- Insert phase of Factura.generarFactura (src/models/Factura.js:38-45): the
INSERT INTO Facturas.  The store rejects it with a duplicate-key error when the
UNIQUE columns id_venta or numero_factura collide with an existing row. -/
def generarFacturaInsercion (idVenta : Nat) (numero : String) (monto : Nat)
    (db : BaseDatos) : Except ErrorVenta (Nat × BaseDatos) :=
  if db.facturas.any (fun f =>
      decide (f.id_venta = idVenta) || decide (f.numero_factura = numero)) then
    .error .claveDuplicada
  else
    let idFactura := db.siguienteIdFactura
    .ok (idFactura,
      { db with
        facturas := db.facturas ++
          [{ id_factura := idFactura, id_venta := idVenta, numero_factura := numero,
             monto_total := monto, estado := .emitida }]
        siguienteIdFactura := idFactura + 1 })

/-- Factura.generarFactura (src/models/Factura.js:12-56): read phase then
insert phase; a throw in either rolls the insert back, so errors return no
state. -/
def generarFactura (idVenta : Nat) (hoy : Fecha) (db : BaseDatos) :
    Except ErrorVenta (Nat × BaseDatos) := do
  let (numero, monto) ← generarFacturaLectura idVenta hoy db
  generarFacturaInsercion idVenta numero monto db

/-- Factura.marcarComoPagada (src/models/Factura.js:259-271): UPDATE ... WHERE
id_factura = ? AND estado = 'EMITIDA'; zero affected rows is an error. -/
def marcarComoPagada (idFactura : Nat) (db : BaseDatos) : Except ErrorVenta BaseDatos :=
  if db.facturas.any (fun f =>
      decide (f.id_factura = idFactura) && decide (f.estado = EstadoFactura.emitida)) then
    .ok { db with
      facturas := db.facturas.map fun f =>
        if f.id_factura = idFactura ∧ f.estado = EstadoFactura.emitida then
          { f with estado := .pagada }
        else f }
  else .error .facturaNoPagable

/-- Factura.eliminarFactura (src/models/Factura.js:205-234): checks existence,
then deletes only the Facturas row. -/
def eliminarFactura (idFactura : Nat) (db : BaseDatos) : Except ErrorVenta BaseDatos :=
  match db.facturas.find? (fun f => decide (f.id_factura = idFactura)) with
  | none => .error .facturaNoEncontrada
  | some _ =>
    .ok { db with
      facturas := db.facturas.filter fun f => decide (f.id_factura ≠ idFactura) }

/-- Factura.anularFactura (src/models/Factura.js:276-337): requires the factura
EMITIDA or PAGADA (joined with its venta), marks it ANULADA, and when the venta
is still COMPLETADA also marks the venta CANCELADA and restores stock from its
Detalles_Venta rows.  The unused `motivo` parameter of the source is kept. -/
def anularFactura (idFactura : Nat) (_motivo : Option String) (db : BaseDatos) :
    Except ErrorVenta BaseDatos :=
  match db.facturas.find? (fun f => decide (f.id_factura = idFactura)) with
  | none => .error .facturaNoAnulable
  | some f =>
    match db.ventas.find? (fun v => decide (v.id_venta = f.id_venta)) with
    | none => .error .facturaNoAnulable
    | some v =>
    if f.estado = EstadoFactura.emitida ∨ f.estado = EstadoFactura.pagada then
      let db1 : BaseDatos :=
        { db with
          facturas := db.facturas.map fun g =>
            if g.id_factura = idFactura then { g with estado := .anulada } else g }
      if v.estado_venta = EstadoVenta.completada then
        let db2 : BaseDatos :=
          { db1 with
            ventas := db1.ventas.map fun w =>
              if w.id_venta = f.id_venta then { w with estado_venta := .cancelada } else w }
        let detalles := db2.detallesVenta.filter fun d => decide (d.id_venta = f.id_venta)
        .ok (detalles.foldl restaurarStockPaso db2)
      else .ok db1
    else .error .facturaNoAnulable

/-- VentaController.procesarCompra (src/services/AuthService.js:930-950): the
checkout endpoint runs Venta.procesarVentaDesdeCarrito and then, in a separate
transaction, Factura.generarFactura.  Each phase commits or rolls back on its
own, so a failure of the invoice phase leaves the committed sale state. -/
def procesarCompra (idUsuario : Nat) (hoy : Fecha) (db : BaseDatos) :
    Except ErrorVenta (Nat × Nat) × BaseDatos :=
  match procesarVentaDesdeCarrito idUsuario db with
  | .error e => (.error e, db)
  | .ok (idVenta, db1) =>
    match generarFactura idVenta hoy db1 with
    | .error e => (.error e, db1)
    | .ok (idFactura, db2) => (.ok (idVenta, idFactura), db2)

/-- VentaController.cancelarCompra (src/services/AuthService.js:1007-1022):
delegates to Venta.cancelarVenta with the requesting user's id. -/
def cancelarCompra (idVenta idUsuario : Nat) (db : BaseDatos) : Except ErrorVenta BaseDatos :=
  cancelarVenta idVenta idUsuario db

/-!
Helper layer: pointwise views of the two per-line folds.  The checkout loop
and the compensation loop both rewrite the product list once per line; the
lemmas below turn each fold into a single `List.map` of a per-product
function, which is what the stock-arithmetic proofs consume.
-/

/-- Effect of the whole checkout loop on one product row. -/
def aplicarLineas (lineas : List (ProductoCarrito × Producto)) (q : Producto) : Producto :=
  lineas.foldl
    (fun r par =>
      if r.id_producto = par.1.id_producto then decrementarStock r par.1.cantidad else r) q

/-- Effect of the whole stock-restoring loop on one product row. -/
def restaurarDetalles (detalles : List DetalleVenta) (q : Producto) : Producto :=
  detalles.foldl
    (fun r d => if r.id_producto = d.id_producto then incrementarStock r d.cantidad else r) q

/-- Total quantity the cart lines request of one product. -/
def cantidadLineas (lineas : List (ProductoCarrito × Producto)) (pid : Nat) : Nat :=
  ((lineas.filter fun par => decide (par.1.id_producto = pid)).map fun par => par.1.cantidad).sum

/-- Total quantity the Detalles_Venta rows record for one product. -/
def cantidadDetalles (detalles : List DetalleVenta) (pid : Nat) : Nat :=
  ((detalles.filter fun d => decide (d.id_producto = pid)).map fun d => d.cantidad).sum

theorem aplicarLineas_nil : aplicarLineas [] = fun q => q := rfl

theorem aplicarLineas_cons (par : ProductoCarrito × Producto)
    (resto : List (ProductoCarrito × Producto)) :
    aplicarLineas (par :: resto) = fun q =>
      aplicarLineas resto
        (if q.id_producto = par.1.id_producto then decrementarStock q par.1.cantidad else q) :=
  rfl

theorem foldl_registrarLinea (idV : Nat) (lineas : List (ProductoCarrito × Producto))
    (db : BaseDatos) :
    lineas.foldl (registrarLinea idV) db =
      { db with
        detallesVenta := db.detallesVenta ++ lineas.map (detalleDeLinea idV)
        productos := db.productos.map (aplicarLineas lineas) } := by
  induction lineas generalizing db with
  | nil =>
    simp [aplicarLineas_nil]
  | cons par resto ih =>
    rw [List.foldl_cons, ih]
    simp [registrarLinea, aplicarLineas_cons, List.map_map, Function.comp]

theorem restaurarDetalles_nil : restaurarDetalles [] = fun q => q := rfl

theorem restaurarDetalles_cons (d : DetalleVenta) (resto : List DetalleVenta) :
    restaurarDetalles (d :: resto) = fun q =>
      restaurarDetalles resto
        (if q.id_producto = d.id_producto then incrementarStock q d.cantidad else q) :=
  rfl

theorem foldl_restaurarStockPaso (detalles : List DetalleVenta) (db : BaseDatos) :
    detalles.foldl restaurarStockPaso db =
      { db with productos := db.productos.map (restaurarDetalles detalles) } := by
  induction detalles generalizing db with
  | nil =>
    simp [restaurarDetalles_nil]
  | cons d resto ih =>
    rw [List.foldl_cons, ih]
    simp [restaurarStockPaso, restaurarDetalles_cons, List.map_map, Function.comp]

theorem decrementarStock_id (p : Producto) (c : Nat) :
    (decrementarStock p c).id_producto = p.id_producto := rfl

theorem incrementarStock_id (p : Producto) (c : Nat) :
    (incrementarStock p c).id_producto = p.id_producto := rfl

theorem decrementarStock_stock (p : Producto) (c : Nat) :
    (decrementarStock p c).stock = p.stock - (c : Int) := rfl

theorem incrementarStock_stock (p : Producto) (c : Nat) :
    (incrementarStock p c).stock = p.stock + (c : Int) := rfl

theorem aplicarLineas_id_producto (lineas : List (ProductoCarrito × Producto)) (q : Producto) :
    (aplicarLineas lineas q).id_producto = q.id_producto := by
  induction lineas generalizing q with
  | nil => rfl
  | cons par resto ih =>
    simp only [aplicarLineas_cons]
    by_cases h : q.id_producto = par.1.id_producto
    · rw [if_pos h, ih, decrementarStock_id]
    · rw [if_neg h, ih]

theorem restaurarDetalles_id_producto (detalles : List DetalleVenta) (q : Producto) :
    (restaurarDetalles detalles q).id_producto = q.id_producto := by
  induction detalles generalizing q with
  | nil => rfl
  | cons d resto ih =>
    simp only [restaurarDetalles_cons]
    by_cases h : q.id_producto = d.id_producto
    · rw [if_pos h, ih, incrementarStock_id]
    · rw [if_neg h, ih]

theorem aplicarLineas_stock (lineas : List (ProductoCarrito × Producto)) (q : Producto) :
    (aplicarLineas lineas q).stock =
      q.stock - (cantidadLineas lineas q.id_producto : Int) := by
  induction lineas generalizing q with
  | nil => simp [aplicarLineas_nil, cantidadLineas]
  | cons par resto ih =>
    simp only [aplicarLineas_cons]
    by_cases h : q.id_producto = par.1.id_producto
    · rw [if_pos h, ih, decrementarStock_id, decrementarStock_stock]
      have he : cantidadLineas (par :: resto) q.id_producto =
          par.1.cantidad + cantidadLineas resto q.id_producto := by
        have hx : par.1.id_producto = q.id_producto := h.symm
        simp [cantidadLineas, List.filter_cons, hx]
      rw [he]
      push_cast
      ring
    · rw [if_neg h, ih]
      have he : cantidadLineas (par :: resto) q.id_producto =
          cantidadLineas resto q.id_producto := by
        have hx : ¬par.1.id_producto = q.id_producto := fun hx => h hx.symm
        simp [cantidadLineas, List.filter_cons, hx]
      rw [he]

theorem procesarVentaDesdeCarrito_ok {u idV : Nat} {db db2 : BaseDatos}
    (h : procesarVentaDesdeCarrito u db = .ok (idV, db2)) :
    ∃ c, db.carritos.find? (fun x => decide (x.id_usuario = u)) = some c ∧
      lineasCarrito c.id_carrito db ≠ [] ∧
      primeraLineaSinStock (lineasCarrito c.id_carrito db) = none ∧
      idV = db.siguienteIdVenta ∧
      db2 = { db with
        productos := db.productos.map (aplicarLineas (lineasCarrito c.id_carrito db))
        productosCarrito := db.productosCarrito.filter fun pc =>
          decide (pc.id_carrito ≠ c.id_carrito)
        ventas := db.ventas ++
          [{ id_venta := idV, id_usuario := u,
             total_venta := totalCarrito (lineasCarrito c.id_carrito db),
             estado_venta := .completada }]
        detallesVenta := db.detallesVenta ++
          (lineasCarrito c.id_carrito db).map (detalleDeLinea idV)
        siguienteIdVenta := idV + 1 } := by
  cases hc : db.carritos.find? (fun x => decide (x.id_usuario = u)) with
  | none => simp [procesarVentaDesdeCarrito, hc] at h
  | some c =>
    refine ⟨c, rfl, ?_⟩
    by_cases hemp : (lineasCarrito c.id_carrito db).isEmpty
    · simp [procesarVentaDesdeCarrito, hc, hemp] at h
    · cases hshort : primeraLineaSinStock (lineasCarrito c.id_carrito db) with
      | some par => simp [procesarVentaDesdeCarrito, hc, hemp, hshort] at h
      | none =>
        simp only [procesarVentaDesdeCarrito, hc, hemp, hshort, Bool.false_eq_true,
          if_false, foldl_registrarLinea, Except.ok.injEq, Prod.mk.injEq] at h
        refine ⟨by simpa [List.isEmpty_iff] using hemp, rfl, h.1.symm, ?_⟩
        rw [← h.2, ← h.1]

theorem cancelarVenta_ok {idV u : Nat} {db db2 : BaseDatos}
    (h : cancelarVenta idV u db = .ok db2) :
    (∃ v ∈ db.ventas, v.id_venta = idV ∧ v.id_usuario = u ∧
      v.estado_venta = EstadoVenta.completada) ∧
    db2 = { db with
      productos := db.productos.map
        (restaurarDetalles (db.detallesVenta.filter fun d => decide (d.id_venta = idV)))
      ventas := db.ventas.map fun v =>
        if v.id_venta = idV then { v with estado_venta := .cancelada } else v } := by
  cases hv : db.ventas.find? (fun v =>
      decide (v.id_venta = idV) && decide (v.id_usuario = u) &&
      decide (v.estado_venta = EstadoVenta.completada)) with
  | none => simp [cancelarVenta, hv] at h
  | some v =>
    have hm := List.mem_of_find?_eq_some hv
    have hp := List.find?_some hv
    simp only [Bool.and_eq_true, decide_eq_true_eq] at hp
    refine ⟨⟨v, hm, hp.1.1, hp.1.2, hp.2⟩, ?_⟩
    simp only [cancelarVenta, hv, foldl_restaurarStockPaso, Except.ok.injEq] at h
    exact h.symm

theorem generarFactura_ok {idV idF : Nat} {hoy : Fecha} {db db2 : BaseDatos}
    (h : generarFactura idV hoy db = .ok (idF, db2)) :
    ∃ v, db.ventas.find? (fun v =>
        decide (v.id_venta = idV) && decide (v.estado_venta = EstadoVenta.completada)) = some v ∧
      db.facturas.find? (fun f => decide (f.id_venta = idV)) = none ∧
      idF = db.siguienteIdFactura ∧
      db2 = { db with
        facturas := db.facturas ++
          [{ id_factura := idF, id_venta := idV,
             numero_factura := generarNumeroFactura hoy.anio hoy.mes db.facturas,
             monto_total := v.total_venta, estado := .emitida }]
        siguienteIdFactura := idF + 1 } := by
  cases hv : db.ventas.find? (fun v =>
      decide (v.id_venta = idV) && decide (v.estado_venta = EstadoVenta.completada)) with
  | none => simp [generarFactura, generarFacturaLectura, hv, Bind.bind, Except.bind] at h
  | some v =>
    cases hf : db.facturas.find? (fun f => decide (f.id_venta = idV)) with
    | some f => simp [generarFactura, generarFacturaLectura, hv, hf, Bind.bind, Except.bind] at h
    | none =>
      refine ⟨v, rfl, rfl, ?_⟩
      by_cases hdup : db.facturas.any (fun f =>
          decide (f.id_venta = idV) ||
          decide (f.numero_factura = generarNumeroFactura hoy.anio hoy.mes db.facturas))
      · simp [generarFactura, generarFacturaLectura, generarFacturaInsercion, hv, hf, hdup,
          Bind.bind, Except.bind] at h
      · simp only [generarFactura, generarFacturaLectura, generarFacturaInsercion, hv, hf,
          Bind.bind, Except.bind, hdup, Bool.false_eq_true, if_false,
          Except.ok.injEq, Prod.mk.injEq] at h
        exact ⟨h.1.symm, by rw [← h.2, ← h.1]⟩

theorem eliminarFactura_ok {idF : Nat} {db db2 : BaseDatos}
    (h : eliminarFactura idF db = .ok db2) :
    (∃ f ∈ db.facturas, f.id_factura = idF) ∧
    db2 = { db with
      facturas := db.facturas.filter fun f => decide (f.id_factura ≠ idF) } := by
  cases hf : db.facturas.find? (fun f => decide (f.id_factura = idF)) with
  | none => simp [eliminarFactura, hf] at h
  | some f =>
    have hm := List.mem_of_find?_eq_some hf
    have hp := List.find?_some hf
    simp only [decide_eq_true_eq] at hp
    refine ⟨⟨f, hm, hp⟩, ?_⟩
    simp only [eliminarFactura, hf, Except.ok.injEq] at h
    exact h.symm

theorem anularFactura_ok {idF : Nat} {motivo : Option String} {db db2 : BaseDatos}
    (h : anularFactura idF motivo db = .ok db2) :
    ∃ f v, db.facturas.find? (fun g => decide (g.id_factura = idF)) = some f ∧
      db.ventas.find? (fun w => decide (w.id_venta = f.id_venta)) = some v ∧
      (f.estado = EstadoFactura.emitida ∨ f.estado = EstadoFactura.pagada) ∧
      ((v.estado_venta = EstadoVenta.completada ∧
        db2 = { db with
          productos := db.productos.map
            (restaurarDetalles
              (db.detallesVenta.filter fun d => decide (d.id_venta = f.id_venta)))
          ventas := db.ventas.map fun w =>
            if w.id_venta = f.id_venta then { w with estado_venta := .cancelada } else w
          facturas := db.facturas.map fun g =>
            if g.id_factura = idF then { g with estado := .anulada } else g }) ∨
       (v.estado_venta ≠ EstadoVenta.completada ∧
        db2 = { db with
          facturas := db.facturas.map fun g =>
            if g.id_factura = idF then { g with estado := .anulada } else g })) := by
  cases hf : db.facturas.find? (fun g => decide (g.id_factura = idF)) with
  | none => simp [anularFactura, hf] at h
  | some f =>
    cases hv : db.ventas.find? (fun w => decide (w.id_venta = f.id_venta)) with
    | none => simp [anularFactura, hf, hv] at h
    | some v =>
      by_cases hest : f.estado = EstadoFactura.emitida ∨ f.estado = EstadoFactura.pagada
      · refine ⟨f, v, rfl, hv, hest, ?_⟩
        by_cases hvc : v.estado_venta = EstadoVenta.completada
        · refine Or.inl ⟨hvc, ?_⟩
          simp only [anularFactura, hf, hv, hest, if_true, hvc,
            foldl_restaurarStockPaso, Except.ok.injEq] at h
          exact h.symm
        · refine Or.inr ⟨hvc, ?_⟩
          simp only [anularFactura, hf, hv, hest, if_true, hvc, if_false,
            Except.ok.injEq] at h
          exact h.symm
      · simp [anularFactura, hf, hv, hest] at h

theorem restaurarDetalles_stock (detalles : List DetalleVenta) (q : Producto) :
    (restaurarDetalles detalles q).stock =
      q.stock + (cantidadDetalles detalles q.id_producto : Int) := by
  induction detalles generalizing q with
  | nil => simp [restaurarDetalles_nil, cantidadDetalles]
  | cons d resto ih =>
    simp only [restaurarDetalles_cons]
    by_cases h : q.id_producto = d.id_producto
    · rw [if_pos h, ih, incrementarStock_id, incrementarStock_stock]
      have he : cantidadDetalles (d :: resto) q.id_producto =
          d.cantidad + cantidadDetalles resto q.id_producto := by
        have hx : d.id_producto = q.id_producto := h.symm
        simp [cantidadDetalles, List.filter_cons, hx]
      rw [he]
      push_cast
      ring
    · rw [if_neg h, ih]
      have he : cantidadDetalles (d :: resto) q.id_producto =
          cantidadDetalles resto q.id_producto := by
        have hx : ¬d.id_producto = q.id_producto := fun hx => h hx.symm
        simp [cantidadDetalles, List.filter_cons, hx]
      rw [he]

theorem lineaDeCarrito_some {db : BaseDatos} {pc : ProductoCarrito}
    {par : ProductoCarrito × Producto} (h : lineaDeCarrito db pc = some par) :
    par.1 = pc ∧ par.2 ∈ db.productos ∧ par.2.id_producto = pc.id_producto ∧
      par.2.estado = EstadoProducto.disponible := by
  cases hfind : db.productos.find? (fun p => decide (p.id_producto = pc.id_producto)) with
  | none => simp [lineaDeCarrito, hfind] at h
  | some p0 =>
    by_cases hest : p0.estado = EstadoProducto.disponible
    · simp only [lineaDeCarrito, hfind, hest, if_true, Option.some.injEq] at h
      have hmem := List.mem_of_find?_eq_some hfind
      have hpid := List.find?_some hfind
      simp only [decide_eq_true_eq] at hpid
      subst h
      exact ⟨rfl, hmem, hpid, hest⟩
    · simp [lineaDeCarrito, hfind, hest] at h

theorem mem_lineasCarrito {idC : Nat} {db : BaseDatos} {par : ProductoCarrito × Producto}
    (h : par ∈ lineasCarrito idC db) :
    par.1 ∈ db.productosCarrito ∧ par.1.id_carrito = idC ∧ par.2 ∈ db.productos ∧
      par.2.id_producto = par.1.id_producto ∧ par.2.estado = EstadoProducto.disponible := by
  obtain ⟨pc0, hpc0, hsome⟩ := List.mem_filterMap.mp h
  obtain ⟨h1, h2, h3, h4⟩ := lineaDeCarrito_some hsome
  have hf := List.mem_filter.mp hpc0
  have hfc : pc0.id_carrito = idC := by simpa using hf.2
  exact ⟨h1 ▸ hf.1, h1 ▸ hfc, h2, h1 ▸ h3, h4⟩

theorem productos_inyectivos {db : BaseDatos}
    (hpk : (db.productos.map fun p => p.id_producto).Nodup)
    {p q : Producto} (hp : p ∈ db.productos) (hq : q ∈ db.productos)
    (hid : p.id_producto = q.id_producto) : p = q :=
  List.inj_on_of_nodup_map hpk hp hq hid

theorem map_fst_filterMap_sublist (db : BaseDatos) (l : List ProductoCarrito) :
    List.Sublist ((l.filterMap (lineaDeCarrito db)).map fun par => par.1) l := by
  induction l with
  | nil => simp
  | cons a resto ih =>
    cases hx : lineaDeCarrito db a with
    | none =>
      simp only [List.filterMap_cons, hx]
      exact ih.cons a
    | some par =>
      have ha : par.1 = a := (lineaDeCarrito_some hx).1
      simp only [List.filterMap_cons, hx, List.map_cons, ha]
      exact ih.cons₂ a

theorem nodup_pids_filtrado {db : BaseDatos}
    (hpk : (db.productosCarrito.map fun pc => (pc.id_carrito, pc.id_producto)).Nodup)
    (idC : Nat) :
    ((db.productosCarrito.filter fun pc => decide (pc.id_carrito = idC)).map
      fun pc => pc.id_producto).Nodup := by
  have hsub : List.Sublist (db.productosCarrito.filter fun pc => decide (pc.id_carrito = idC))
      db.productosCarrito := List.filter_sublist _
  have hnd : ((db.productosCarrito.filter fun pc => decide (pc.id_carrito = idC)).map
      fun pc => (pc.id_carrito, pc.id_producto)).Nodup := hpk.sublist (hsub.map _)
  have heq : ((db.productosCarrito.filter fun pc => decide (pc.id_carrito = idC)).map
        fun pc => pc.id_producto) =
      (((db.productosCarrito.filter fun pc => decide (pc.id_carrito = idC)).map
        fun pc => (pc.id_carrito, pc.id_producto)).map Prod.snd) := by
    simp [List.map_map, Function.comp]
  rw [heq]
  refine hnd.map_on ?_
  intro x hx y hy hxy
  obtain ⟨pcx, hpcx, rfl⟩ := List.mem_map.mp hx
  obtain ⟨pcy, hpcy, rfl⟩ := List.mem_map.mp hy
  have h1 : pcx.id_carrito = idC := by simpa using (List.mem_filter.mp hpcx).2
  have h2 : pcy.id_carrito = idC := by simpa using (List.mem_filter.mp hpcy).2
  simp only [Prod.mk.injEq]
  exact ⟨h1.trans h2.symm, hxy⟩

theorem nodup_pids_lineas {db : BaseDatos}
    (hpk : (db.productosCarrito.map fun pc => (pc.id_carrito, pc.id_producto)).Nodup)
    (idC : Nat) :
    ((lineasCarrito idC db).map fun par => par.1.id_producto).Nodup := by
  have h1 := nodup_pids_filtrado hpk idC
  have h2 : ((lineasCarrito idC db).map fun par => par.1.id_producto) =
      (((lineasCarrito idC db).map fun par => par.1).map fun pc => pc.id_producto) := by
    simp [List.map_map, Function.comp]
  rw [h2]
  exact h1.sublist ((map_fst_filterMap_sublist db _).map _)

theorem cantidadLineas_de_nodup {lineas : List (ProductoCarrito × Producto)}
    (hnd : (lineas.map fun par => par.1.id_producto).Nodup)
    {par : ProductoCarrito × Producto} (hmem : par ∈ lineas) :
    cantidadLineas lineas par.1.id_producto = par.1.cantidad := by
  induction lineas with
  | nil => cases hmem
  | cons a resto ih =>
    simp only [List.map_cons, List.nodup_cons] at hnd
    rcases List.mem_cons.mp hmem with rfl | hmem2
    · have hrest : List.filter (fun x => decide (x.1.id_producto = par.1.id_producto)) resto
          = [] := by
        rw [List.filter_eq_nil_iff]
        intro x hx
        simp only [decide_eq_true_eq]
        intro he
        exact hnd.1 (he ▸ List.mem_map_of_mem _ hx)
      simp [cantidadLineas, List.filter_cons, hrest]
    · have hne : ¬a.1.id_producto = par.1.id_producto := fun he =>
        hnd.1 (he ▸ List.mem_map_of_mem _ hmem2)
      have hrec := ih hnd.2 hmem2
      simpa [cantidadLineas, List.filter_cons, hne] using hrec

theorem cantidadLineas_cero {lineas : List (ProductoCarrito × Producto)} {pid : Nat}
    (h : ∀ par ∈ lineas, par.1.id_producto ≠ pid) :
    cantidadLineas lineas pid = 0 := by
  have : List.filter (fun x => decide (x.1.id_producto = pid)) lineas = [] := by
    rw [List.filter_eq_nil_iff]
    intro x hx
    simpa using h x hx
  simp [cantidadLineas, this]

/-- Quantity of one product the user's cart would sell: the cart join's
requested cantidad for that product (0 when the user has no cart). -/
def cantidadVendida (idUsuario : Nat) (db : BaseDatos) (pid : Nat) : Nat :=
  match db.carritos.find? (fun c => decide (c.id_usuario = idUsuario)) with
  | some c => cantidadLineas (lineasCarrito c.id_carrito db) pid
  | none => 0

/-- C2: for every successful checkout, every product's stock afterwards equals
its stock before minus the quantity the cart sold of it (zero for products the
cart did not sell), and no stock quantity is negative afterwards.  The
hypotheses are the schema's PRIMARY KEY constraints on Productos and
Productos_Carrito and non-negative stock beforehand. -/
theorem C2_teorema (u idV : Nat) (db db2 : BaseDatos)
    (hpkProd : (db.productos.map fun p => p.id_producto).Nodup)
    (hpkCarr : (db.productosCarrito.map fun pc => (pc.id_carrito, pc.id_producto)).Nodup)
    (hstock : ∀ p ∈ db.productos, 0 ≤ p.stock)
    (h : procesarVentaDesdeCarrito u db = .ok (idV, db2)) :
    (∀ p ∈ db.productos, ∃ p2 ∈ db2.productos, p2.id_producto = p.id_producto ∧
      p2.stock = p.stock - (cantidadVendida u db p.id_producto : Int)) ∧
    ∀ p2 ∈ db2.productos, 0 ≤ p2.stock := by
  obtain ⟨c, hc, hne, hshort, hid, hdb2⟩ := procesarVentaDesdeCarrito_ok h
  have hventa : ∀ p2 ∈ db2.productos, ∃ p ∈ db.productos,
      p2 = aplicarLineas (lineasCarrito c.id_carrito db) p := by
    intro p2 hp2
    rw [hdb2] at hp2
    obtain ⟨p, hp, rfl⟩ := List.mem_map.mp hp2
    exact ⟨p, hp, rfl⟩
  have hcota : ∀ p ∈ db.productos,
      (cantidadLineas (lineasCarrito c.id_carrito db) p.id_producto : Int) ≤ p.stock := by
    intro p hp
    by_cases hex : ∃ par ∈ lineasCarrito c.id_carrito db, par.1.id_producto = p.id_producto
    · obtain ⟨par, hparmem, hpid⟩ := hex
      have hnd := nodup_pids_lineas hpkCarr c.id_carrito
      have hcant := cantidadLineas_de_nodup hnd hparmem
      rw [← hpid, hcant]
      obtain ⟨-, -, hpprod, hpid2, -⟩ := mem_lineasCarrito hparmem
      have hpeq : par.2 = p :=
        productos_inyectivos hpkProd hpprod hp (hpid2.trans hpid)
      have hval := List.find?_eq_none.mp hshort par hparmem
      simp only [decide_eq_true_eq, not_lt] at hval
      rw [← hpeq]
      exact hval
    · push_neg at hex
      rw [cantidadLineas_cero hex]
      simpa using hstock p hp
  constructor
  · intro p hp
    refine ⟨aplicarLineas (lineasCarrito c.id_carrito db) p, ?_, ?_, ?_⟩
    · rw [hdb2]
      exact List.mem_map_of_mem _ hp
    · exact aplicarLineas_id_producto _ p
    · rw [aplicarLineas_stock]
      simp [cantidadVendida, hc]
  · intro p2 hp2
    obtain ⟨p, hp, rfl⟩ := hventa p2 hp2
    rw [aplicarLineas_stock]
    have := hcota p hp
    omega

theorem find?_append_right {α : Type} {l1 l2 : List α} {p : α → Bool}
    (h : ∀ a ∈ l1, ¬p a = true) : (l1 ++ l2).find? p = l2.find? p := by
  induction l1 with
  | nil => rfl
  | cons a resto ih =>
    have ha := h a (List.mem_cons_self a resto)
    rw [List.cons_append, List.find?_cons]
    cases hpa : p a with
    | true => exact absurd hpa ha
    | false => exact ih fun b hb => h b (List.mem_cons_of_mem a hb)

theorem filter_detalles_nueva {detalles : List DetalleVenta} {idV : Nat}
    (hfresh : ∀ d ∈ detalles, d.id_venta ≠ idV) (lineas : List (ProductoCarrito × Producto)) :
    (detalles ++ lineas.map (detalleDeLinea idV)).filter
      (fun d => decide (d.id_venta = idV)) = lineas.map (detalleDeLinea idV) := by
  rw [List.filter_append]
  have h1 : detalles.filter (fun d => decide (d.id_venta = idV)) = [] := by
    rw [List.filter_eq_nil_iff]
    intro d hd
    simpa using hfresh d hd
  have h2 : (lineas.map (detalleDeLinea idV)).filter (fun d => decide (d.id_venta = idV)) =
      lineas.map (detalleDeLinea idV) := by
    rw [List.filter_eq_self]
    intro d hd
    obtain ⟨par, -, rfl⟩ := List.mem_map.mp hd
    simp [detalleDeLinea]
  rw [h1, h2, List.nil_append]

theorem cantidadDetalles_map_detalle (idV : Nat) (lineas : List (ProductoCarrito × Producto))
    (pid : Nat) :
    cantidadDetalles (lineas.map (detalleDeLinea idV)) pid = cantidadLineas lineas pid := by
  unfold cantidadDetalles cantidadLineas
  rw [List.filter_map, List.map_map]
  rfl

theorem ventas_marcadas {ventas : List Venta} {idV : Nat} :
    ∀ v ∈ ventas.map (fun w =>
      if w.id_venta = idV then { w with estado_venta := EstadoVenta.cancelada } else w),
      v.id_venta = idV → v.estado_venta = EstadoVenta.cancelada := by
  intro v hv hid
  obtain ⟨w, hw, rfl⟩ := List.mem_map.mp hv
  by_cases h : w.id_venta = idV
  · simp [h]
  · rw [if_neg h] at hid ⊢
    exact absurd hid h

/-- C3: compensation restores stock exactly.  For a checkout followed either by
Venta.cancelarVenta or by invoice issuance and Factura.anularFactura, every
product's stock returns to its value before the sale (each line's recorded
cantidad is added back), and the sale ends CANCELADA.  The freshness
hypotheses state that the AUTO_INCREMENT counters are beyond every existing
row id, as the store guarantees. -/
theorem C3_teorema (u idV idF : Nat) (hoy : Fecha) (db db1 db2 dbc : BaseDatos)
    (hfreshV : ∀ v ∈ db.ventas, v.id_venta < db.siguienteIdVenta)
    (hfreshD : ∀ d ∈ db.detallesVenta, d.id_venta < db.siguienteIdVenta)
    (hfreshF : ∀ f ∈ db.facturas, f.id_factura < db.siguienteIdFactura)
    (h1 : procesarVentaDesdeCarrito u db = .ok (idV, db1))
    (h2 : cancelarVenta idV u db1 = .ok dbc ∨
      (generarFactura idV hoy db1 = .ok (idF, db2) ∧ anularFactura idF none db2 = .ok dbc)) :
    (∀ p ∈ db.productos, ∃ p2 ∈ dbc.productos, p2.id_producto = p.id_producto ∧
      p2.stock = p.stock) ∧
    ∀ v ∈ dbc.ventas, v.id_venta = idV → v.estado_venta = EstadoVenta.cancelada := by
  obtain ⟨c, hc, hne, hshort, hidV, hdb1⟩ := procesarVentaDesdeCarrito_ok h1
  have hfreshD2 : ∀ d ∈ db.detallesVenta, d.id_venta ≠ idV := by
    intro d hd
    have := hfreshD d hd
    omega
  rcases h2 with hcan | ⟨hgen, hanul⟩
  · obtain ⟨-, hdbc⟩ := cancelarVenta_ok hcan
    rw [hdb1] at hdbc
    constructor
    · intro p hp
      refine ⟨restaurarDetalles
          ((lineasCarrito c.id_carrito db).map (detalleDeLinea idV))
          (aplicarLineas (lineasCarrito c.id_carrito db) p), ?_, ?_, ?_⟩
      · rw [hdbc]
        simp only [filter_detalles_nueva hfreshD2]
        exact List.mem_map_of_mem _ (List.mem_map_of_mem _ hp)
      · rw [restaurarDetalles_id_producto, aplicarLineas_id_producto]
      · rw [restaurarDetalles_stock, aplicarLineas_id_producto, aplicarLineas_stock,
          cantidadDetalles_map_detalle]
        omega
    · intro v hv hid
      rw [hdbc] at hv
      exact ventas_marcadas v hv hid
  · obtain ⟨vv, hvfind, hffind, hidF, hdb2⟩ := generarFactura_ok hgen
    obtain ⟨f, v, hf2, hv2, hest, hcase⟩ := anularFactura_ok hanul
    have hprod1 : db1.productos =
        db.productos.map (aplicarLineas (lineasCarrito c.id_carrito db)) := by rw [hdb1]
    have hvent1 : db1.ventas = db.ventas ++
        [(⟨idV, u, totalCarrito (lineasCarrito c.id_carrito db), .completada⟩ : Venta)] := by
      rw [hdb1]
    have hdet1 : db1.detallesVenta = db.detallesVenta ++
        (lineasCarrito c.id_carrito db).map (detalleDeLinea idV) := by rw [hdb1]
    have hfact1 : db1.facturas = db.facturas := by rw [hdb1]
    have hsigF1 : db1.siguienteIdFactura = db.siguienteIdFactura := by rw [hdb1]
    have hidF2 : idF = db.siguienteIdFactura := by rw [hidF, hsigF1]
    have hprod2 : db2.productos = db1.productos := by rw [hdb2]
    have hvent2 : db2.ventas = db1.ventas := by rw [hdb2]
    have hdet2 : db2.detallesVenta = db1.detallesVenta := by rw [hdb2]
    have hfact2 : db2.facturas = db1.facturas ++
        [(⟨idF, idV, generarNumeroFactura hoy.anio hoy.mes db1.facturas,
           vv.total_venta, .emitida⟩ : Factura)] := by rw [hdb2]
    -- the voided factura is the newly inserted one
    have hffresh : ∀ g ∈ db1.facturas, ¬(decide (g.id_factura = idF) = true) := by
      intro g hg
      rw [hfact1] at hg
      have := hfreshF g hg
      simp only [decide_eq_true_eq]
      omega
    have hf2c : f = (⟨idF, idV, generarNumeroFactura hoy.anio hoy.mes db1.facturas,
        vv.total_venta, EstadoFactura.emitida⟩ : Factura) := by
      rw [hfact2, find?_append_right hffresh] at hf2
      simp at hf2
      exact hf2.symm
    -- the joined venta is the newly inserted one
    have hvfresh : ∀ w ∈ db.ventas, ¬(decide (w.id_venta = f.id_venta) = true) := by
      intro w hw
      have := hfreshV w hw
      simp only [decide_eq_true_eq, hf2c]
      omega
    have hv2c : v = (⟨idV, u, totalCarrito (lineasCarrito c.id_carrito db),
        EstadoVenta.completada⟩ : Venta) := by
      rw [hvent2, hvent1, find?_append_right hvfresh] at hv2
      simp [hf2c] at hv2
      exact hv2.symm
    have hfid : f.id_venta = idV := by rw [hf2c]
    rcases hcase with ⟨-, hdbc⟩ | ⟨hnc, -⟩
    · have hdbcProd : dbc.productos = db2.productos.map
          (restaurarDetalles (db2.detallesVenta.filter fun d =>
            decide (d.id_venta = f.id_venta))) := by rw [hdbc]
      have hdbcVent : dbc.ventas = db2.ventas.map fun w =>
          if w.id_venta = f.id_venta then { w with estado_venta := .cancelada } else w := by
        rw [hdbc]
      have hfiltro : db2.detallesVenta.filter (fun d => decide (d.id_venta = f.id_venta)) =
          (lineasCarrito c.id_carrito db).map (detalleDeLinea idV) := by
        rw [hdet2, hdet1, hfid]
        exact filter_detalles_nueva hfreshD2 _
      constructor
      · intro p hp
        refine ⟨restaurarDetalles
            ((lineasCarrito c.id_carrito db).map (detalleDeLinea idV))
            (aplicarLineas (lineasCarrito c.id_carrito db) p), ?_, ?_, ?_⟩
        · rw [hdbcProd, hfiltro, hprod2, hprod1]
          exact List.mem_map_of_mem _ (List.mem_map_of_mem _ hp)
        · rw [restaurarDetalles_id_producto, aplicarLineas_id_producto]
        · rw [restaurarDetalles_stock, aplicarLineas_id_producto, aplicarLineas_stock,
            cantidadDetalles_map_detalle]
          omega
      · intro w hw hid
        rw [hdbcVent, hfid] at hw
        exact ventas_marcadas w hw hid
    · exact absurd (by rw [hv2c]) hnc

/-- C5 (amended): Venta.cancelarVenta never touches the Facturas table, so
after cancelling a sale its invoice keeps whatever status it had (an ISSUED
invoice stays ISSUED and now references a CANCELLED sale); the sale itself is
marked CANCELADA. -/
theorem C5_teorema (idVenta idUsuario : Nat) (db db2 : BaseDatos)
    (h : cancelarVenta idVenta idUsuario db = .ok db2) :
    db2.facturas = db.facturas ∧
    ∀ v ∈ db2.ventas, v.id_venta = idVenta → v.estado_venta = EstadoVenta.cancelada := by
  obtain ⟨-, hdb2⟩ := cancelarVenta_ok h
  constructor
  · rw [hdb2]
  · intro v hv hid
    rw [hdb2] at hv
    exact ventas_marcadas v hv hid

/-- C6: for the sale a checkout creates, total_venta equals the sum of its
Detalles_Venta rows' subtotal_linea, each subtotal_linea being
cantidad × precio_unitario; and the invoice Factura.generarFactura inserts
carries monto_total equal to the referenced venta's total_venta read at
issuance. -/
theorem C6_teorema (u idV idF : Nat) (hoy : Fecha) (db db1 dbf db2 : BaseDatos)
    (hfreshV : ∀ v ∈ db.ventas, v.id_venta < db.siguienteIdVenta)
    (hfreshD : ∀ d ∈ db.detallesVenta, d.id_venta < db.siguienteIdVenta)
    (hfreshF : ∀ f ∈ dbf.facturas, f.id_factura < dbf.siguienteIdFactura) :
    (procesarVentaDesdeCarrito u db = .ok (idV, db1) →
      (∀ v ∈ db1.ventas, v.id_venta = idV →
        v.total_venta = ((db1.detallesVenta.filter fun d => decide (d.id_venta = idV)).map
          fun d => d.subtotal_linea).sum) ∧
      ∀ d ∈ db1.detallesVenta, d.id_venta = idV →
        d.subtotal_linea = d.cantidad * d.precio_unitario) ∧
    (generarFactura idV hoy dbf = .ok (idF, db2) →
      ∃ v, dbf.ventas.find? (fun v => decide (v.id_venta = idV) &&
          decide (v.estado_venta = EstadoVenta.completada)) = some v ∧
        ∀ f ∈ db2.facturas, f.id_factura = idF → f.monto_total = v.total_venta) := by
  constructor
  · intro h
    obtain ⟨c, hc, -, -, hidV, hdb1⟩ := procesarVentaDesdeCarrito_ok h
    have hfreshD2 : ∀ d ∈ db.detallesVenta, d.id_venta ≠ idV := by
      intro d hd
      have := hfreshD d hd
      omega
    have hdet1 : db1.detallesVenta = db.detallesVenta ++
        (lineasCarrito c.id_carrito db).map (detalleDeLinea idV) := by rw [hdb1]
    have hfiltro : db1.detallesVenta.filter (fun d => decide (d.id_venta = idV)) =
        (lineasCarrito c.id_carrito db).map (detalleDeLinea idV) := by
      rw [hdet1]
      exact filter_detalles_nueva hfreshD2 _
    constructor
    · intro v hv hid
      rw [hdb1] at hv
      rcases List.mem_append.mp hv with hold | hnew
      · have := hfreshV v hold
        omega
      · have hveq : v = (⟨idV, u, totalCarrito (lineasCarrito c.id_carrito db),
            EstadoVenta.completada⟩ : Venta) := by simpa using hnew
        rw [hveq, hfiltro, List.map_map]
        rfl
    · intro d hd hid
      rw [hdet1] at hd
      rcases List.mem_append.mp hd with hold | hnew
      · exact absurd hid (hfreshD2 d hold)
      · obtain ⟨par, -, rfl⟩ := List.mem_map.mp hnew
        rfl
  · intro h
    obtain ⟨v, hvfind, -, hidF, hdb2⟩ := generarFactura_ok h
    refine ⟨v, hvfind, ?_⟩
    intro f hf hid
    rw [hdb2] at hf
    rcases List.mem_append.mp hf with hold | hnew
    · have := hfreshF f hold
      omega
    · have : f = (⟨idF, idV, generarNumeroFactura hoy.anio hoy.mes dbf.facturas,
          v.total_venta, EstadoFactura.emitida⟩ : Factura) := by simpa using hnew
      rw [this]

/-- C8: cancelling an already-CANCELLED sale and voiding an already-VOID
invoice both fail with the corresponding invalid-state error; the guarding
SELECT of each method runs before any UPDATE, so the error leaves the store
untouched (the embedding returns the error with no successor state). -/
theorem C8_teorema (idVenta idUsuario idFactura : Nat) (motivo : Option String)
    (db : BaseDatos) :
    ((∀ v ∈ db.ventas, v.id_venta = idVenta → v.estado_venta = EstadoVenta.cancelada) →
      cancelarVenta idVenta idUsuario db = .error .ventaNoCancelable) ∧
    ((∀ f ∈ db.facturas, f.id_factura = idFactura → f.estado = EstadoFactura.anulada) →
      anularFactura idFactura motivo db = .error .facturaNoAnulable) := by
  constructor
  · intro hcanc
    have hnone : db.ventas.find? (fun v =>
        decide (v.id_venta = idVenta) && decide (v.id_usuario = idUsuario) &&
        decide (v.estado_venta = EstadoVenta.completada)) = none := by
      rw [List.find?_eq_none]
      intro v hv
      by_cases h1 : v.id_venta = idVenta
      · have := hcanc v hv h1
        simp [this, h1]
      · simp [h1]
    simp [cancelarVenta, hnone]
  · intro hanul
    cases hf : db.facturas.find? (fun f => decide (f.id_factura = idFactura)) with
    | none => simp [anularFactura, hf]
    | some f =>
      have hmem := List.mem_of_find?_eq_some hf
      have hid : f.id_factura = idFactura := by simpa using List.find?_some hf
      have hanulada := hanul f hmem hid
      cases hv : db.ventas.find? (fun w => decide (w.id_venta = f.id_venta)) with
      | none => simp [anularFactura, hf, hv]
      | some v =>
        have hno : ¬(f.estado = EstadoFactura.emitida ∨ f.estado = EstadoFactura.pagada) := by
          rw [hanulada]
          rintro (h | h) <;> cases h
        simp [anularFactura, hf, hv, hno]

/-- C9 (amended): the stock validation loop of checkout fails fast: it reports
the first cart line (in Productos_Carrito order) whose requested cantidad
exceeds the product's stock, with that product's name, stock and requested
quantity; later shortfalls are not reported. -/
theorem C9_teorema (u : Nat) (db : BaseDatos) (c : Carrito)
    (antes despues : List (ProductoCarrito × Producto)) (par : ProductoCarrito × Producto)
    (hc : db.carritos.find? (fun x => decide (x.id_usuario = u)) = some c)
    (hsplit : lineasCarrito c.id_carrito db = antes ++ par :: despues)
    (hok : ∀ x ∈ antes, ¬((x.1.cantidad : Int) > x.2.stock))
    (hshort : (par.1.cantidad : Int) > par.2.stock) :
    procesarVentaDesdeCarrito u db =
      .error (.stockInsuficiente par.2.nombre_producto par.2.stock par.1.cantidad) := by
  have hfind : primeraLineaSinStock (lineasCarrito c.id_carrito db) = some par := by
    unfold primeraLineaSinStock
    rw [hsplit, find?_append_right (by intro a ha; simpa using hok a ha)]
    simp [List.find?_cons, hshort]
  have hemp : (lineasCarrito c.id_carrito db).isEmpty = false := by
    rw [hsplit]
    simp
  simp [procesarVentaDesdeCarrito, hc, hemp, hfind]

/-- C10 (amended): Factura.eliminarFactura removes exactly the one Facturas
row and nothing else; afterwards the duplicate-invoice guard no longer fires,
and re-issuing an invoice for the same venta succeeds whenever that venta is
still COMPLETADA and the freshly derived number collides with no remaining
row (after a void, the venta is already CANCELADA and re-issuance fails
instead). -/
theorem C10_teorema (idFactura : Nat) (hoy : Fecha) (db db2 : BaseDatos) (f : Factura)
    (_hf : f ∈ db.facturas) (_hid : f.id_factura = idFactura)
    (h : eliminarFactura idFactura db = .ok db2) :
    db2.productos = db.productos ∧ db2.ventas = db.ventas ∧
    db2.detallesVenta = db.detallesVenta ∧ db2.productosCarrito = db.productosCarrito ∧
    db2.facturas = db.facturas.filter (fun g => decide (g.id_factura ≠ idFactura)) ∧
    ((∀ g ∈ db2.facturas, g.id_venta ≠ f.id_venta) →
     (∃ v ∈ db.ventas, v.id_venta = f.id_venta ∧ v.estado_venta = EstadoVenta.completada) →
     (∀ g ∈ db2.facturas,
        g.numero_factura ≠ generarNumeroFactura hoy.anio hoy.mes db2.facturas) →
     ∃ db3, generarFactura f.id_venta hoy db2 = .ok (db2.siguienteIdFactura, db3)) := by
  obtain ⟨-, hdb2⟩ := eliminarFactura_ok h
  refine ⟨by rw [hdb2], by rw [hdb2], by rw [hdb2], by rw [hdb2], by rw [hdb2], ?_⟩
  intro hnoref hventa hnum
  have hventas2 : db2.ventas = db.ventas := by rw [hdb2]
  have hvsome : (db2.ventas.find? (fun v => decide (v.id_venta = f.id_venta) &&
      decide (v.estado_venta = EstadoVenta.completada))).isSome := by
    rw [List.find?_isSome]
    obtain ⟨v, hv, h1, h2⟩ := hventa
    exact ⟨v, by rw [hventas2]; exact hv, by simp [h1, h2]⟩
  obtain ⟨v, hvfind⟩ := Option.isSome_iff_exists.mp hvsome
  have hfnone : db2.facturas.find? (fun g => decide (g.id_venta = f.id_venta)) = none := by
    rw [List.find?_eq_none]
    intro g hg
    simpa using hnoref g hg
  have hany : (db2.facturas.any fun g => decide (g.id_venta = f.id_venta) ||
      decide (g.numero_factura = generarNumeroFactura hoy.anio hoy.mes db2.facturas)) =
      false := by
    rw [List.any_eq_false]
    intro g hg
    simp [hnoref g hg, hnum g hg]
  refine ⟨{ db2 with facturas := db2.facturas ++ [(⟨db2.siguienteIdFactura, f.id_venta, generarNumeroFactura hoy.anio hoy.mes db2.facturas, v.total_venta, EstadoFactura.emitida⟩ : Factura)], siguienteIdFactura := db2.siguienteIdFactura + 1 }, ?_⟩
  simp [generarFactura, generarFacturaLectura, generarFacturaInsercion,
    hvfind, hfnone, hany, Bind.bind, Except.bind]

/-- C1 (amended): the sale phase of VentaController.procesarCompra (cart read,
availability check, sale and line inserts, stock decrement, cart clear) is one
atomic unit: when it fails, the pre-state is returned untouched.  Invoice
issuance runs in a separate transaction after the sale commits: when the
invoice phase fails, the committed sale remains (status COMPLETADA) and the
user's cart stays cleared — only the invoice insert is rolled back. -/
theorem C1_teorema (u idV : Nat) (e : ErrorVenta) (hoy : Fecha) (db db1 : BaseDatos) :
    (procesarVentaDesdeCarrito u db = .error e →
      procesarCompra u hoy db = (.error e, db)) ∧
    (procesarVentaDesdeCarrito u db = .ok (idV, db1) →
      generarFactura idV hoy db1 = .error e →
      procesarCompra u hoy db = (.error e, db1) ∧
      (∃ v ∈ db1.ventas, v.id_venta = idV ∧ v.estado_venta = EstadoVenta.completada) ∧
      ∀ c, db.carritos.find? (fun x => decide (x.id_usuario = u)) = some c →
        ∀ pc ∈ db1.productosCarrito, pc.id_carrito ≠ c.id_carrito) := by
  constructor
  · intro h
    simp [procesarCompra, h]
  · intro h hg
    refine ⟨by simp [procesarCompra, h, hg], ?_, ?_⟩
    · obtain ⟨c, hc, -, -, hidV, hdb1⟩ := procesarVentaDesdeCarrito_ok h
      refine ⟨⟨idV, u, totalCarrito (lineasCarrito c.id_carrito db), .completada⟩, ?_, rfl, rfl⟩
      rw [hdb1]
      simp
    · intro c hc pc hpc
      obtain ⟨c2, hc2, -, -, -, hdb1⟩ := procesarVentaDesdeCarrito_ok h
      have hceq : c2 = c := Option.some.inj (hc2.symm.trans hc)
      rw [hdb1] at hpc
      have := (List.mem_filter.mp hpc).2
      rw [hceq] at this
      simpa using this

/-!
Decimal-string theory for the invoice numbers.  `Nat.repr` is characterised on
each digit-count class up to four digits, which covers every sequence value a
period can reach before the 4-digit field overflows; the padded suffix is then
`cuatroDigitos`, whose parse, order and length properties follow by bounded
case analysis and arithmetic.
-/

theorem toDigitsCore_succ (fuel n : Nat) (acc : List Char) :
    Nat.toDigitsCore 10 (fuel + 1) n acc =
      if n / 10 = 0 then Nat.digitChar (n % 10) :: acc
      else Nat.toDigitsCore 10 fuel (n / 10) (Nat.digitChar (n % 10) :: acc) := rfl

theorem toDigitsCore_uno {fuel n : Nat} (acc : List Char) (h : n < 10) (hf : 1 ≤ fuel) :
    Nat.toDigitsCore 10 fuel n acc = Nat.digitChar n :: acc := by
  obtain ⟨f, rfl⟩ : ∃ f, fuel = f + 1 := ⟨fuel - 1, by omega⟩
  rw [toDigitsCore_succ, if_pos (by omega), Nat.mod_eq_of_lt h]

theorem toDigitsCore_dos {fuel n : Nat} (acc : List Char) (h1 : 10 ≤ n) (h2 : n < 100)
    (hf : 2 ≤ fuel) :
    Nat.toDigitsCore 10 fuel n acc =
      Nat.digitChar (n / 10) :: Nat.digitChar (n % 10) :: acc := by
  obtain ⟨f, rfl⟩ : ∃ f, fuel = f + 1 := ⟨fuel - 1, by omega⟩
  rw [toDigitsCore_succ, if_neg (by omega), toDigitsCore_uno _ (by omega) (by omega)]

theorem toDigitsCore_tres {fuel n : Nat} (acc : List Char) (h1 : 100 ≤ n) (h2 : n < 1000)
    (hf : 3 ≤ fuel) :
    Nat.toDigitsCore 10 fuel n acc =
      Nat.digitChar (n / 100) :: Nat.digitChar (n / 10 % 10) :: Nat.digitChar (n % 10) ::
        acc := by
  obtain ⟨f, rfl⟩ : ∃ f, fuel = f + 1 := ⟨fuel - 1, by omega⟩
  rw [toDigitsCore_succ, if_neg (by omega), toDigitsCore_dos _ (by omega) (by omega) (by omega)]
  have : n / 10 / 10 = n / 100 := by omega
  rw [this]

theorem toDigitsCore_cuatro {fuel n : Nat} (acc : List Char) (h1 : 1000 ≤ n) (h2 : n < 10000)
    (hf : 4 ≤ fuel) :
    Nat.toDigitsCore 10 fuel n acc =
      Nat.digitChar (n / 1000) :: Nat.digitChar (n / 100 % 10) ::
        Nat.digitChar (n / 10 % 10) :: Nat.digitChar (n % 10) :: acc := by
  obtain ⟨f, rfl⟩ : ∃ f, fuel = f + 1 := ⟨fuel - 1, by omega⟩
  rw [toDigitsCore_succ, if_neg (by omega), toDigitsCore_tres _ (by omega) (by omega) (by omega)]
  have e1 : n / 10 / 100 = n / 1000 := by omega
  have e2 : n / 10 / 10 = n / 100 := by omega
  rw [e1, e2]

theorem toString_eq_uno {k : Nat} (h : k < 10) :
    toString k = String.mk [Nat.digitChar k] := by
  show Nat.repr k = _
  unfold Nat.repr Nat.toDigits
  rw [toDigitsCore_uno [] h (by omega)]
  rfl

theorem toString_eq_dos {k : Nat} (h1 : 10 ≤ k) (h2 : k < 100) :
    toString k = String.mk [Nat.digitChar (k / 10), Nat.digitChar (k % 10)] := by
  show Nat.repr k = _
  unfold Nat.repr Nat.toDigits
  rw [toDigitsCore_dos [] h1 h2 (by omega)]
  rfl

theorem toString_eq_tres {k : Nat} (h1 : 100 ≤ k) (h2 : k < 1000) :
    toString k = String.mk [Nat.digitChar (k / 100), Nat.digitChar (k / 10 % 10),
      Nat.digitChar (k % 10)] := by
  show Nat.repr k = _
  unfold Nat.repr Nat.toDigits
  rw [toDigitsCore_tres [] h1 h2 (by omega)]
  rfl

theorem toString_eq_cuatro {k : Nat} (h1 : 1000 ≤ k) (h2 : k < 10000) :
    toString k = String.mk [Nat.digitChar (k / 1000), Nat.digitChar (k / 100 % 10),
      Nat.digitChar (k / 10 % 10), Nat.digitChar (k % 10)] := by
  show Nat.repr k = _
  unfold Nat.repr Nat.toDigits
  rw [toDigitsCore_cuatro [] h1 h2 (by omega)]
  rfl

/-- The four characters of a sequence value padded to width 4. -/
def cuatroDigitos (k : Nat) : List Char :=
  [Nat.digitChar (k / 1000), Nat.digitChar (k / 100 % 10), Nat.digitChar (k / 10 % 10),
    Nat.digitChar (k % 10)]

theorem padStart_toString_eq_cuatro {k : Nat} (h : k < 10000) :
    padStart 4 '0' (toString k) = String.mk (cuatroDigitos k) := by
  have d0 : Nat.digitChar 0 = '0' := rfl
  unfold padStart cuatroDigitos
  rcases Nat.lt_or_ge k 10 with h1 | h1
  · rw [toString_eq_uno h1]
    have e1 : k / 1000 = 0 := by omega
    have e2 : k / 100 % 10 = 0 := by omega
    have e3 : k / 10 % 10 = 0 := by omega
    have e4 : k % 10 = k := by omega
    rw [e1, e2, e3, e4, d0]
    rfl
  · rcases Nat.lt_or_ge k 100 with h2 | h2
    · rw [toString_eq_dos h1 h2]
      have e1 : k / 1000 = 0 := by omega
      have e2 : k / 100 % 10 = 0 := by omega
      have e3 : k / 10 % 10 = k / 10 := by omega
      rw [e1, e2, e3, d0]
      rfl
    · rcases Nat.lt_or_ge k 1000 with h3 | h3
      · rw [toString_eq_tres h2 h3]
        have e1 : k / 1000 = 0 := by omega
        have e2 : k / 100 % 10 = k / 100 := by omega
        rw [e1, e2, d0]
        rfl
      · rw [toString_eq_cuatro h3 h]
        rfl

theorem toNat_cuatro {k : Nat} (h : k < 10000) :
    parseEntero (String.mk (cuatroDigitos k)) = some k := by
  have hdig : ∀ m, m < 10 → (Nat.digitChar m).isDigit = true := by decide
  have htn : ∀ m, m < 10 → (Nat.digitChar m).toNat = 48 + m := by decide
  have hdata : (String.mk (cuatroDigitos k)).data = cuatroDigitos k := rfl
  have hnat : (!(String.mk (cuatroDigitos k)).data.isEmpty &&
      (String.mk (cuatroDigitos k)).data.all Char.isDigit) = true := by
    rw [hdata, Bool.and_eq_true]
    constructor
    · rfl
    · rw [List.all_eq_true]
      intro c hc
      simp only [cuatroDigitos, List.mem_cons, List.not_mem_nil, or_false] at hc
      rcases hc with rfl | rfl | rfl | rfl
      · exact hdig _ (by omega)
      · exact hdig _ (by omega)
      · exact hdig _ (by omega)
      · exact hdig _ (by omega)
  unfold parseEntero
  rw [if_pos hnat, hdata]
  congr 1
  simp only [cuatroDigitos, List.foldl_cons, List.foldl_nil]
  rw [htn (k / 1000) (by omega), htn (k / 100 % 10) (by omega), htn (k / 10 % 10) (by omega),
    htn (k % 10) (by omega)]
  have h48 : ('0'.toNat) = 48 := rfl
  rw [h48]
  omega

theorem lex_cons_iff {x y : Char} {xs ys : List Char} :
    List.Lex (· < ·) (x :: xs) (y :: ys) ↔
      (x < y ∨ (x = y ∧ List.Lex (· < ·) xs ys)) := by
  constructor
  · intro h
    cases h with
    | cons h1 => exact Or.inr ⟨rfl, h1⟩
    | rel h1 => exact Or.inl h1
  · rintro (h1 | ⟨rfl, h2⟩)
    · exact List.Lex.rel h1
    · exact List.Lex.cons h2

theorem lista_append_lt {p a b : List Char} :
    List.Lex (· < ·) (p ++ a) (p ++ b) ↔ List.Lex (· < ·) a b := by
  induction p with
  | nil => rw [List.nil_append, List.nil_append]
  | cons c resto ih =>
    rw [List.cons_append, List.cons_append, lex_cons_iff]
    simp [lt_irrefl, ih]

theorem cuatro_lt_iff {k j : Nat} (hk : k < 10000) (hj : j < 10000) :
    (List.Lex (· < ·) (cuatroDigitos k) (cuatroDigitos j)) ↔ k < j := by
  have hmono : ∀ a, a < 10 → ∀ b, b < 10 →
      ((Nat.digitChar a < Nat.digitChar b) ↔ a < b) := by decide
  have hinj : ∀ a, a < 10 → ∀ b, b < 10 →
      ((Nat.digitChar a = Nat.digitChar b) ↔ a = b) := by decide
  have hnil : ((List.Lex (· < ·) ([] : List Char) []) ↔ False) :=
    ⟨(fun h => nomatch h), False.elim⟩
  unfold cuatroDigitos
  rw [lex_cons_iff, lex_cons_iff, lex_cons_iff, lex_cons_iff,
    hmono _ (by omega) _ (by omega), hinj _ (by omega) _ (by omega),
    hmono _ (by omega) _ (by omega), hinj _ (by omega) _ (by omega),
    hmono _ (by omega) _ (by omega), hinj _ (by omega) _ (by omega),
    hmono _ (by omega) _ (by omega), hinj _ (by omega) _ (by omega), hnil]
  constructor
  · intro h
    rcases h with h1 | ⟨e1, h1 | ⟨e2, h1 | ⟨e3, h1 | ⟨e4, hf⟩⟩⟩⟩
    · omega
    · omega
    · omega
    · omega
    · exact hf.elim
  · intro h
    omega

/-- Invoice-number string of a period prefix and a sequence value: the very
concatenation Factura.generarNumeroFactura returns. -/
def fmtNumero (pre : String) (k : Nat) : String :=
  pre ++ padStart 4 '0' (toString k)

theorem string_lt_iff {s t : String} : s < t ↔ List.Lex (· < ·) s.data t.data := by
  rw [String.lt_iff_toList_lt]
  exact Iff.rfl

theorem menorLista_lex : ∀ (a b : List Char), menorLista a b = true ↔ List.Lex (· < ·) a b
  | [], [] => by
    simp only [menorLista]
    exact ⟨(fun h => nomatch h), (fun h => nomatch h)⟩
  | a :: as, [] => by
    simp only [menorLista]
    exact ⟨(fun h => nomatch h), (fun h => nomatch h)⟩
  | [], b :: bs => by
    simp only [menorLista]
    exact ⟨fun _ => List.Lex.nil, fun _ => trivial⟩
  | a :: as, b :: bs => by
    rw [lex_cons_iff]
    simp only [menorLista]
    by_cases h1 : a < b
    · simp [h1]
    · rw [if_neg h1]
      by_cases h2 : a = b
      · rw [if_pos h2, menorLista_lex as bs]
        simp [h1, h2]
      · rw [if_neg h2]
        simp [h1, h2]

theorem menorLista_str {s t : String} : menorLista s.data t.data = true ↔ s < t := by
  rw [string_lt_iff]
  exact menorLista_lex s.data t.data

theorem fmtNumero_lt_iff {pre : String} {k j : Nat} (hk : k < 10000) (hj : j < 10000) :
    (fmtNumero pre k < fmtNumero pre j) ↔ k < j := by
  have hd : ∀ m : Nat, m < 10000 → (padStart 4 '0' (toString m)).data = cuatroDigitos m := by
    intro m hm
    rw [padStart_toString_eq_cuatro hm]
  rw [string_lt_iff]
  unfold fmtNumero
  rw [String.data_append, String.data_append, hd k hk, hd j hj, lista_append_lt,
    cuatro_lt_iff hk hj]

theorem ultimosCuatro_fmt {pre : String} {k : Nat} (hk : k < 10000) :
    ultimosCuatro (fmtNumero pre k) = padStart 4 '0' (toString k) := by
  unfold ultimosCuatro fmtNumero
  rw [padStart_toString_eq_cuatro hk, String.data_append]
  have hlen : (String.mk (cuatroDigitos k)).data = cuatroDigitos k := rfl
  have h4 : (cuatroDigitos k).length = 4 := rfl
  rw [hlen, List.length_append, h4]
  have he : pre.data.length + 4 - 4 = pre.data.length := by omega
  rw [he, List.drop_left]

theorem foldr_max_lt {seqs : List Nat} {B : Nat} (hB : 0 < B) (h : ∀ k ∈ seqs, k < B) :
    seqs.foldr Nat.max 0 < B := by
  induction seqs with
  | nil => simpa
  | cons a resto ih =>
    simp only [List.foldr_cons]
    have h1 := h a (List.mem_cons_self a resto)
    have h2 := ih fun k hk => h k (List.mem_cons_of_mem a hk)
    exact Nat.max_lt.mpr ⟨h1, h2⟩

theorem le_foldr_max {seqs : List Nat} {k : Nat} (h : k ∈ seqs) :
    k ≤ seqs.foldr Nat.max 0 := by
  induction seqs with
  | nil => cases h
  | cons a resto ih =>
    simp only [List.foldr_cons]
    rcases List.mem_cons.mp h with rfl | h2
    · exact Nat.le_max_left _ _
    · exact le_trans (ih h2) (Nat.le_max_right _ _)

theorem maximaCadena_cons_some {s : String} {resto : List String} {m : String}
    (h : maximaCadena resto = some m) :
    maximaCadena (s :: resto) = some (if menorLista m.data s.data then s else m) := by
  unfold maximaCadena
  rw [h]

theorem maximaCadena_fmt {pre : String} : ∀ (seqs : List Nat), seqs ≠ [] →
    (∀ k ∈ seqs, k < 10000) →
    maximaCadena (seqs.map (fmtNumero pre)) = some (fmtNumero pre (seqs.foldr Nat.max 0))
  | [], h, _ => absurd rfl h
  | [k], _, _ => by
    simp [maximaCadena]
  | k :: k2 :: resto, _, hall => by
    have hall2 : ∀ x ∈ k2 :: resto, x < 10000 := fun x hx => hall x (List.mem_cons_of_mem _ hx)
    have ih := @maximaCadena_fmt pre (k2 :: resto) (by simp) hall2
    have hK : (k2 :: resto).foldr Nat.max 0 < 10000 := foldr_max_lt (by omega) hall2
    have hk10 : k < 10000 := hall k (List.mem_cons_self _ _)
    simp only [List.map_cons] at ih ⊢
    rw [maximaCadena_cons_some ih]
    by_cases hcmp : (k2 :: resto).foldr Nat.max 0 < k
    · rw [if_pos (menorLista_str.mpr ((fmtNumero_lt_iff hK hk10).mpr hcmp))]
      have he : List.foldr Nat.max 0 (k :: k2 :: resto) = k := by
        rw [List.foldr_cons]
        exact Nat.max_eq_left (le_of_lt hcmp)
      rw [he]
    · rw [if_neg fun hcon => hcmp ((fmtNumero_lt_iff hK hk10).mp (menorLista_str.mp hcon))]
      have he : List.foldr Nat.max 0 (k :: k2 :: resto) = List.foldr Nat.max 0 (k2 :: resto) := by
        rw [List.foldr_cons]
        exact Nat.max_eq_right (le_of_not_lt hcmp)
      rw [he]

theorem generarNumeroFactura_eq (anio mes : Nat) (facturas : List Factura) (seqs : List Nat)
    (hWF : (facturas.filter fun f =>
        likePrefijo (toString anio ++ padStart 2 '0' (toString mes)) f.numero_factura).map
          (fun f => f.numero_factura) =
      seqs.map (fmtNumero (toString anio ++ padStart 2 '0' (toString mes))))
    (hall : ∀ k ∈ seqs, k < 10000) :
    generarNumeroFactura anio mes facturas =
      fmtNumero (toString anio ++ padStart 2 '0' (toString mes))
        (seqs.foldr Nat.max 0 + 1) := by
  simp only [generarNumeroFactura]
  rw [hWF]
  cases seqs with
  | nil => simp [maximaCadena, siguienteSecuencial, fmtNumero]
  | cons k resto =>
    rw [maximaCadena_fmt (k :: resto) (by simp) hall]
    have hK : (k :: resto).foldr Nat.max 0 < 10000 := foldr_max_lt (by omega) hall
    have hsec : siguienteSecuencial
        (some (fmtNumero (toString anio ++ padStart 2 '0' (toString mes))
          ((k :: resto).foldr Nat.max 0))) = (k :: resto).foldr Nat.max 0 + 1 := by
      show ((parseEntero (ultimosCuatro (fmtNumero (toString anio ++ padStart 2 '0' (toString mes))
        ((k :: resto).foldr Nat.max 0)))).getD 0) + 1 = (k :: resto).foldr Nat.max 0 + 1
      rw [ultimosCuatro_fmt hK, padStart_toString_eq_cuatro hK, toNat_cuatro hK]
      rfl
    rw [hsec]
    rfl

/-- C7 (amended): for a period whose existing invoice numbers are all of the
standard shape prefix + 4-digit sequence, Factura.generarNumeroFactura returns
the prefix {year}{month:2} followed by the padded decimal of (maximum existing
sequence + 1), the maximum being 0 — hence sequence 1 — when the period has no
numbers; the sequence field has exactly 4 digits as long as the successor
stays below 10000 (at 10000 the field widens to 5 digits and the claimed
format no longer holds, see the counterexample). -/
theorem C7_teorema (anio mes : Nat) (facturas : List Factura) (seqs : List Nat)
    (hWF : (facturas.filter fun f =>
        likePrefijo (toString anio ++ padStart 2 '0' (toString mes)) f.numero_factura).map
          (fun f => f.numero_factura) =
      seqs.map (fmtNumero (toString anio ++ padStart 2 '0' (toString mes))))
    (hall : ∀ k ∈ seqs, k < 10000) :
    generarNumeroFactura anio mes facturas =
      fmtNumero (toString anio ++ padStart 2 '0' (toString mes)) (seqs.foldr Nat.max 0 + 1) ∧
    (seqs.foldr Nat.max 0 + 1 < 10000 →
      (padStart 4 '0' (toString (seqs.foldr Nat.max 0 + 1))).length = 4) := by
  refine ⟨generarNumeroFactura_eq anio mes facturas seqs hWF hall, ?_⟩
  intro h
  rw [padStart_toString_eq_cuatro h]
  rfl

/-- C4 (amended): nothing serializes the number derivation against concurrent
issuance (it reads the pool outside the insert's transaction, see the
counterexample's interleaving); under sequential issuance the inserted
invoice's number is strictly greater than, and distinct from, every existing
number of its period. -/
theorem C4_teorema (idV idF : Nat) (hoy : Fecha) (db db2 : BaseDatos) (seqs : List Nat)
    (hWF : (db.facturas.filter fun f =>
        likePrefijo (toString hoy.anio ++ padStart 2 '0' (toString hoy.mes))
          f.numero_factura).map (fun f => f.numero_factura) =
      seqs.map (fmtNumero (toString hoy.anio ++ padStart 2 '0' (toString hoy.mes))))
    (hall : ∀ k ∈ seqs, k < 9999)
    (hfreshF : ∀ f ∈ db.facturas, f.id_factura < db.siguienteIdFactura)
    (h : generarFactura idV hoy db = .ok (idF, db2)) :
    ∀ f2 ∈ db2.facturas, f2.id_factura = idF →
      ∀ g ∈ db.facturas,
        likePrefijo (toString hoy.anio ++ padStart 2 '0' (toString hoy.mes))
          g.numero_factura = true →
        g.numero_factura < f2.numero_factura ∧ g.numero_factura ≠ f2.numero_factura := by
  obtain ⟨v, hvfind, hffind, hidF, hdb2⟩ := generarFactura_ok h
  intro f2 hf2 hid g hg hpre
  have hf2eq : f2 = (⟨idF, idV, generarNumeroFactura hoy.anio hoy.mes db.facturas,
      v.total_venta, EstadoFactura.emitida⟩ : Factura) := by
    rw [hdb2] at hf2
    rcases List.mem_append.mp hf2 with hold | hnew
    · have := hfreshF f2 hold
      omega
    · simpa using hnew
  have hgen := generarNumeroFactura_eq hoy.anio hoy.mes db.facturas seqs hWF
    (fun k hk => lt_trans (hall k hk) (by omega))
  have hgmem : g.numero_factura ∈ (db.facturas.filter fun f =>
      likePrefijo (toString hoy.anio ++ padStart 2 '0' (toString hoy.mes))
        f.numero_factura).map (fun f => f.numero_factura) :=
    List.mem_map_of_mem _ (List.mem_filter.mpr ⟨hg, hpre⟩)
  rw [hWF] at hgmem
  obtain ⟨k, hkmem, hkeq⟩ := List.mem_map.mp hgmem
  have hkM : k ≤ seqs.foldr Nat.max 0 := le_foldr_max hkmem
  have hM : seqs.foldr Nat.max 0 < 9999 := foldr_max_lt (by omega) hall
  have hlt : fmtNumero (toString hoy.anio ++ padStart 2 '0' (toString hoy.mes)) k <
      fmtNumero (toString hoy.anio ++ padStart 2 '0' (toString hoy.mes))
        (seqs.foldr Nat.max 0 + 1) :=
    (fmtNumero_lt_iff (by omega) (by omega)).mpr (by omega)
  have hnum : f2.numero_factura =
      fmtNumero (toString hoy.anio ++ padStart 2 '0' (toString hoy.mes))
        (seqs.foldr Nat.max 0 + 1) := by
    rw [hf2eq]
    exact hgen
  constructor
  · rw [hnum, ← hkeq]
    exact hlt
  · intro heq
    rw [hkeq, heq, hnum] at hlt
    exact lt_irrefl _ hlt

/-!
Concrete stores used by the witnesses and counterexamples.  `dbEjemplo` is a
small shop: one user (id 1) whose cart (id 10) holds 3 chairs and 2 tables;
the states after checkout, invoicing, cancellation, voiding and invoice
deletion are spelled out literally.
-/

def fechaEjemplo : Fecha := ⟨2024, 11⟩

def dbEjemplo : BaseDatos :=
  { productos := [⟨1, "Silla", 100, 5, .disponible⟩, ⟨2, "Mesa", 200, 3, .disponible⟩]
    carritos := [⟨10, 1⟩]
    productosCarrito := [⟨10, 1, 3⟩, ⟨10, 2, 2⟩]
    ventas := []
    detallesVenta := []
    facturas := []
    siguienteIdVenta := 1
    siguienteIdFactura := 1 }

def dbEjemploVendido : BaseDatos :=
  { productos := [⟨1, "Silla", 100, 2, .agotado⟩, ⟨2, "Mesa", 200, 1, .agotado⟩]
    carritos := [⟨10, 1⟩]
    productosCarrito := []
    ventas := [⟨1, 1, 700, .completada⟩]
    detallesVenta := [⟨1, 1, 3, 100, 300⟩, ⟨1, 2, 2, 200, 400⟩]
    facturas := []
    siguienteIdVenta := 2
    siguienteIdFactura := 1 }

def dbEjemploFacturado : BaseDatos :=
  { dbEjemploVendido with
    facturas := [⟨1, 1, "2024110001", 700, .emitida⟩]
    siguienteIdFactura := 2 }

def dbEjemploCancelado0 : BaseDatos :=
  { dbEjemploVendido with
    productos := [⟨1, "Silla", 100, 5, .disponible⟩, ⟨2, "Mesa", 200, 3, .disponible⟩]
    ventas := [⟨1, 1, 700, .cancelada⟩] }

def dbEjemploCancelado : BaseDatos :=
  { dbEjemploFacturado with
    productos := [⟨1, "Silla", 100, 5, .disponible⟩, ⟨2, "Mesa", 200, 3, .disponible⟩]
    ventas := [⟨1, 1, 700, .cancelada⟩] }

def dbEjemploAnulado : BaseDatos :=
  { dbEjemploCancelado with
    facturas := [⟨1, 1, "2024110001", 700, .anulada⟩] }

def dbEjemploSinFactura : BaseDatos :=
  { dbEjemploVendido with
    facturas := []
    siguienteIdFactura := 2 }

def dbAnuladoSinFactura : BaseDatos :=
  { dbEjemploAnulado with facturas := [] }

/-- Store for the C1 counterexample: the Facturas table already holds the
period's lexicographic maximum "2024119999" and the 11-character
"20241110000" that the generator produced right after it, so the next
derivation repeats "20241110000" and the INSERT hits the numero_factura
UNIQUE constraint. -/
def dbC1 : BaseDatos :=
  { productos := [⟨1, "Silla", 100, 5, .disponible⟩]
    carritos := [⟨10, 1⟩]
    productosCarrito := [⟨10, 1, 1⟩]
    ventas := [⟨90, 2, 300, .completada⟩, ⟨91, 2, 400, .completada⟩]
    detallesVenta := []
    facturas := [⟨1, 90, "2024119999", 300, .emitida⟩, ⟨2, 91, "20241110000", 400, .emitida⟩]
    siguienteIdVenta := 92
    siguienteIdFactura := 3 }

def dbC1tras : BaseDatos :=
  { productos := [⟨1, "Silla", 100, 4, .disponible⟩]
    carritos := [⟨10, 1⟩]
    productosCarrito := []
    ventas := [⟨90, 2, 300, .completada⟩, ⟨91, 2, 400, .completada⟩, ⟨92, 1, 100, .completada⟩]
    detallesVenta := [⟨92, 1, 1, 100, 100⟩]
    facturas := [⟨1, 90, "2024119999", 300, .emitida⟩, ⟨2, 91, "20241110000", 400, .emitida⟩]
    siguienteIdVenta := 93
    siguienteIdFactura := 3 }

/-- Store for the C4 counterexample: two COMPLETADA ventas await invoices in
an empty period. -/
def dbC4 : BaseDatos :=
  { productos := []
    carritos := []
    productosCarrito := []
    ventas := [⟨90, 1, 100, .completada⟩, ⟨91, 2, 200, .completada⟩]
    detallesVenta := []
    facturas := []
    siguienteIdVenta := 92
    siguienteIdFactura := 1 }

def dbC4despuesB : BaseDatos :=
  { dbC4 with
    facturas := [⟨1, 91, "2024110001", 200, .emitida⟩]
    siguienteIdFactura := 2 }

/-- Store for the C4 witness: one invoice of the period already exists. -/
def dbC4b : BaseDatos :=
  { productos := []
    carritos := []
    productosCarrito := []
    ventas := [⟨90, 1, 100, .completada⟩, ⟨91, 2, 200, .completada⟩]
    detallesVenta := []
    facturas := [⟨1, 91, "2024110001", 200, .emitida⟩]
    siguienteIdVenta := 92
    siguienteIdFactura := 2 }

def dbC4bTras : BaseDatos :=
  { dbC4b with
    facturas := [⟨1, 91, "2024110001", 200, .emitida⟩, ⟨2, 90, "2024110002", 100, .emitida⟩]
    siguienteIdFactura := 3 }

/-- Store for the C9 artifacts: both cart lines exceed the available stock. -/
def dbC9 : BaseDatos :=
  { dbEjemplo with
    productos := [⟨1, "Silla", 100, 1, .disponible⟩, ⟨2, "Mesa", 200, 0, .disponible⟩] }

def facturaC7a : Factura := ⟨1, 90, "2024119999", 300, .emitida⟩

def facturaC7b : Factura := ⟨2, 91, "20241110000", 400, .emitida⟩

def facturaC7c : Factura := ⟨1, 90, "2024030007", 100, .emitida⟩

/-- C1 is false as stated: on dbC1 the sale phase commits (venta 92 created,
cart emptied, stock decremented) and the invoice phase then fails on the
numero_factura UNIQUE constraint, yet nothing is rolled back — the final
state keeps the sale and the cleared cart. -/
theorem C1_contraejemplo :
    procesarCompra 1 fechaEjemplo dbC1 = (.error .claveDuplicada, dbC1tras) ∧
    dbC1.productosCarrito = [⟨10, 1, 1⟩] ∧
    dbC1tras.productosCarrito = [] ∧
    (⟨92, 1, 100, .completada⟩ : Venta) ∈ dbC1tras.ventas ∧
    (⟨92, 1, 1, 100, 100⟩ : DetalleVenta) ∈ dbC1tras.detallesVenta :=
  ⟨by decide, by decide, by decide, by decide, by decide⟩

/-- Instantiation of the amended C1 on dbC1: the invoice-phase failure keeps
the committed sale and the cleared cart. -/
theorem C1_testigo :
    procesarCompra 1 fechaEjemplo dbC1 = (.error .claveDuplicada, dbC1tras) ∧
    (∃ v ∈ dbC1tras.ventas, v.id_venta = 92 ∧ v.estado_venta = EstadoVenta.completada) ∧
    ∀ c, dbC1.carritos.find? (fun x => decide (x.id_usuario = 1)) = some c →
      ∀ pc ∈ dbC1tras.productosCarrito, pc.id_carrito ≠ c.id_carrito :=
  (C1_teorema 1 92 .claveDuplicada fechaEjemplo dbC1 dbC1tras).2 (by decide) (by decide)

/-- Instantiation of C2 on dbEjemplo's checkout. -/
theorem C2_testigo :
    (dbEjemplo.productos.map fun p => p.id_producto).Nodup ∧
    (dbEjemplo.productosCarrito.map fun pc => (pc.id_carrito, pc.id_producto)).Nodup ∧
    (∀ p ∈ dbEjemplo.productos, 0 ≤ p.stock) ∧
    ((∀ p ∈ dbEjemplo.productos, ∃ p2 ∈ dbEjemploVendido.productos,
        p2.id_producto = p.id_producto ∧
        p2.stock = p.stock - (cantidadVendida 1 dbEjemplo p.id_producto : Int)) ∧
      ∀ p2 ∈ dbEjemploVendido.productos, 0 ≤ p2.stock) :=
  ⟨by decide, by decide, by decide,
    C2_teorema 1 1 dbEjemplo dbEjemploVendido (by decide) (by decide) (by decide) (by decide)⟩

/-- Instantiation of C3 on dbEjemplo: checkout then cancellation restores both
products' stock exactly and cancels the sale. -/
theorem C3_testigo :
    (∀ p ∈ dbEjemplo.productos, ∃ p2 ∈ dbEjemploCancelado0.productos,
      p2.id_producto = p.id_producto ∧ p2.stock = p.stock) ∧
    ∀ v ∈ dbEjemploCancelado0.ventas, v.id_venta = 1 →
      v.estado_venta = EstadoVenta.cancelada :=
  C3_teorema 1 1 0 fechaEjemplo dbEjemplo dbEjemploVendido dbEjemploVendido
    dbEjemploCancelado0 (by decide) (by decide) (by decide) (by decide) (Or.inl (by decide))

/-- C4 is false as stated: in the interleaving where both issuances run their
read phase (the derivation runs on the pool, outside and before the insert's
transaction) before either insert phase, both receive the same number
"2024110001"; the later insert then fails on the UNIQUE constraint instead of
receiving the next number in order. -/
theorem C4_contraejemplo :
    generarFacturaLectura 90 fechaEjemplo dbC4 = .ok ("2024110001", 100) ∧
    generarFacturaLectura 91 fechaEjemplo dbC4 = .ok ("2024110001", 200) ∧
    generarFacturaInsercion 91 "2024110001" 200 dbC4 = .ok (1, dbC4despuesB) ∧
    generarFacturaInsercion 90 "2024110001" 100 dbC4despuesB = .error .claveDuplicada :=
  ⟨by decide, by decide, by decide, by decide⟩

/-- Instantiation of the amended C4 on dbC4b: a sequentially issued invoice
gets a number strictly above the period's existing one. -/
theorem C4_testigo :
    ("2024110001" : String) < "2024110002" ∧ ("2024110001" : String) ≠ "2024110002" :=
  C4_teorema 90 2 fechaEjemplo dbC4b dbC4bTras [1] (by decide) (by decide) (by decide)
    (by decide) ⟨2, 90, "2024110002", 100, .emitida⟩ (by decide) (by decide)
    ⟨1, 91, "2024110001", 200, .emitida⟩ (by decide) (by decide)

/-- C5 is false as stated: cancelling sale 1, which invoice 1 references in
status EMITIDA, leaves that invoice EMITIDA while the sale becomes
CANCELADA — an ISSUED invoice referencing a CANCELLED sale. -/
theorem C5_contraejemplo :
    procesarCompra 1 fechaEjemplo dbEjemplo = (.ok (1, 1), dbEjemploFacturado) ∧
    cancelarVenta 1 1 dbEjemploFacturado = .ok dbEjemploCancelado ∧
    (⟨1, 1, "2024110001", 700, .emitida⟩ : Factura) ∈ dbEjemploCancelado.facturas ∧
    (⟨1, 1, 700, .cancelada⟩ : Venta) ∈ dbEjemploCancelado.ventas :=
  ⟨by decide, by decide, by decide, by decide⟩

/-- Instantiation of the amended C5 on dbEjemploFacturado. -/
theorem C5_testigo :
    dbEjemploCancelado.facturas = dbEjemploFacturado.facturas ∧
    ∀ v ∈ dbEjemploCancelado.ventas, v.id_venta = 1 →
      v.estado_venta = EstadoVenta.cancelada :=
  C5_teorema 1 1 dbEjemploFacturado dbEjemploCancelado (by decide)

/-- Instantiation of C6 on dbEjemplo's checkout and invoice. -/
theorem C6_testigo :
    ((∀ v ∈ dbEjemploVendido.ventas, v.id_venta = 1 →
        v.total_venta = ((dbEjemploVendido.detallesVenta.filter fun d =>
          decide (d.id_venta = 1)).map fun d => d.subtotal_linea).sum) ∧
      ∀ d ∈ dbEjemploVendido.detallesVenta, d.id_venta = 1 →
        d.subtotal_linea = d.cantidad * d.precio_unitario) ∧
    (∃ v, dbEjemploVendido.ventas.find? (fun v => decide (v.id_venta = 1) &&
        decide (v.estado_venta = EstadoVenta.completada)) = some v ∧
      ∀ f ∈ dbEjemploFacturado.facturas, f.id_factura = 1 →
        f.monto_total = v.total_venta) :=
  ⟨(C6_teorema 1 1 1 fechaEjemplo dbEjemplo dbEjemploVendido dbEjemploVendido
      dbEjemploFacturado (by decide) (by decide) (by decide)).1 (by decide),
    (C6_teorema 1 1 1 fechaEjemplo dbEjemplo dbEjemploVendido dbEjemploVendido
      dbEjemploFacturado (by decide) (by decide) (by decide)).2 (by decide)⟩

/-- C7 is false as stated: once the period holds "2024119999", the next
derivation returns "20241110000", an 11-character string, while every number
of the claimed {year}{month:2}{sequence:4} format with this 4-digit year has
10 characters; and with "20241110000" also present the derivation returns
"20241110000" again — a number that already exists, not the maximum plus
one. -/
theorem C7_contraejemplo :
    generarNumeroFactura 2024 11 [facturaC7a] = "20241110000" ∧
    ("20241110000" : String).length = 11 ∧
    (∀ seq : Nat, seq < 10000 →
      (toString 2024 ++ padStart 2 '0' (toString 11) ++
        padStart 4 '0' (toString seq)).length = 10) ∧
    generarNumeroFactura 2024 11 [facturaC7a, facturaC7b] = "20241110000" ∧
    facturaC7b.numero_factura = "20241110000" := by
  refine ⟨by decide, by decide, ?_, by decide, by decide⟩
  intro seq h
  rw [padStart_toString_eq_cuatro h]
  rfl

/-- Instantiation of the amended C7: with "2024030007" present, the derivation
for period 2024-03 returns the formatted successor of sequence 7. -/
theorem C7_testigo :
    generarNumeroFactura 2024 3 [facturaC7c] =
      fmtNumero (toString 2024 ++ padStart 2 '0' (toString 3))
        (([7] : List Nat).foldr Nat.max 0 + 1) ∧
    (([7] : List Nat).foldr Nat.max 0 + 1 < 10000 →
      (padStart 4 '0' (toString (([7] : List Nat).foldr Nat.max 0 + 1))).length = 4) :=
  C7_teorema 2024 3 [facturaC7c] [7] (by decide) (by decide)

/-- Instantiation of C8 on dbEjemploAnulado, whose sale is already CANCELADA
and whose invoice is already ANULADA. -/
theorem C8_testigo :
    (∀ v ∈ dbEjemploAnulado.ventas, v.id_venta = 1 →
      v.estado_venta = EstadoVenta.cancelada) ∧
    (∀ f ∈ dbEjemploAnulado.facturas, f.id_factura = 1 →
      f.estado = EstadoFactura.anulada) ∧
    cancelarVenta 1 1 dbEjemploAnulado = .error .ventaNoCancelable ∧
    anularFactura 1 none dbEjemploAnulado = .error .facturaNoAnulable :=
  ⟨by decide, by decide,
    (C8_teorema 1 1 1 none dbEjemploAnulado).1 (by decide),
    (C8_teorema 1 1 1 none dbEjemploAnulado).2 (by decide)⟩

/-- C9 is false as stated: on dbC9 both cart lines exceed the available stock,
yet the checkout reports only the first shortfall (Silla, available 1,
requested 3) and says nothing about Mesa. -/
theorem C9_contraejemplo :
    procesarVentaDesdeCarrito 1 dbC9 = .error (.stockInsuficiente "Silla" 1 3) ∧
    ((lineasCarrito 10 dbC9).filter fun par =>
      decide ((par.1.cantidad : Int) > par.2.stock)).length = 2 :=
  ⟨by decide, by decide⟩

/-- Instantiation of the amended C9 on dbC9. -/
theorem C9_testigo :
    procesarVentaDesdeCarrito 1 dbC9 = .error (.stockInsuficiente "Silla" 1 3) :=
  C9_teorema 1 dbC9 ⟨10, 1⟩ [] [(⟨10, 2, 2⟩, ⟨2, "Mesa", 200, 0, .disponible⟩)]
    (⟨10, 1, 3⟩, ⟨1, "Silla", 100, 1, .disponible⟩) (by decide) (by decide) (by decide)
    (by decide)

/-- C10 is false as stated for a VOID invoice: voiding invoice 1 cancels sale
1, and after deleting the voided invoice the re-issuance fails with the
sale-not-completed error — not because of the duplicate guard, which indeed
no longer fires. -/
theorem C10_contraejemplo :
    anularFactura 1 none dbEjemploFacturado = .ok dbEjemploAnulado ∧
    eliminarFactura 1 dbEjemploAnulado = .ok dbAnuladoSinFactura ∧
    generarFactura 1 fechaEjemplo dbAnuladoSinFactura = .error .ventaNoCompletada ∧
    generarFactura 1 fechaEjemplo dbAnuladoSinFactura ≠ .error .facturaDuplicada :=
  ⟨by decide, by decide, by decide, by decide⟩

/-- Instantiation of the amended C10: deleting the ISSUED invoice of sale 1
changes nothing else, and re-issuing an invoice for sale 1 then succeeds. -/
theorem C10_testigo :
    dbEjemploSinFactura.productos = dbEjemploFacturado.productos ∧
    dbEjemploSinFactura.ventas = dbEjemploFacturado.ventas ∧
    dbEjemploSinFactura.detallesVenta = dbEjemploFacturado.detallesVenta ∧
    dbEjemploSinFactura.productosCarrito = dbEjemploFacturado.productosCarrito ∧
    dbEjemploSinFactura.facturas = dbEjemploFacturado.facturas.filter
      (fun g => decide (g.id_factura ≠ 1)) ∧
    ∃ db3, generarFactura 1 fechaEjemplo dbEjemploSinFactura =
      .ok (dbEjemploSinFactura.siguienteIdFactura, db3) := by
  have T := C10_teorema 1 fechaEjemplo dbEjemploFacturado dbEjemploSinFactura
    ⟨1, 1, "2024110001", 700, .emitida⟩ (by decide) (by decide) (by decide)
  exact ⟨T.1, T.2.1, T.2.2.1, T.2.2.2.1, T.2.2.2.2.1,
    T.2.2.2.2.2 (by decide) (by decide) (by decide)⟩

end Carpinteria
